import Mathlib

set_option maxHeartbeats 1600000
set_option maxRecDepth 8000

/-!
Verification development for the clarity workspace execution engine.

The definitions below are a shallow embedding of the TypeScript source:
the statement splitter, the execution preflight classifier, the result
pane manager, the query batch runner, the worksheet tab registry and the
object data editor.  Strings are modelled through their character lists;
JavaScript regular-expression replacements are modelled by equivalent
deterministic scanners (leftmost match, greedy with ordered-alternative
backtracking, global continuation after each match); JavaScript numbers
are modelled by rationals extended with the three non-finite values.
Character constants that would need escape sequences are written with
Char.ofNat.  Only the ASCII fragment of JavaScript whitespace and case
conversion is modelled; all inputs of interest are ASCII.
-/

/-! ## Character utilities -/

def singleQuoteChar : Char := Char.ofNat 39

def doubleQuoteChar : Char := Char.ofNat 34

def newlineChar : Char := Char.ofNat 10

def tabbingChar : Char := Char.ofNat 9

def carriageReturnChar : Char := Char.ofNat 13

def verticalTabChar : Char := Char.ofNat 11

def formFeedChar : Char := Char.ofNat 12

/-- String holding one single-quote character. -/
def sqlQuoteStr : String := String.singleton singleQuoteChar

/-- String holding one double-quote character. -/
def dblQuoteStr : String := String.singleton doubleQuoteChar

/-- ASCII fragment of the JavaScript whitespace class used by trim and by a
backslash-s in a regular expression. -/
def isJsWhitespace (c : Char) : Bool :=
  c = ' ' || c = tabbingChar || c = newlineChar || c = carriageReturnChar ||
    c = verticalTabChar || c = formFeedChar

def trimStartL (l : List Char) : List Char := l.dropWhile isJsWhitespace

def trimEndL (l : List Char) : List Char := (l.reverse.dropWhile isJsWhitespace).reverse

/-- Model of the JavaScript trim method. -/
def trimL (l : List Char) : List Char := trimEndL (trimStartL l)

/-- ASCII model of toUpperCase. -/
def toUpperL (l : List Char) : List Char := l.map Char.toUpper

/-! ## Comment stripping

Models removeSqlComments: first every block comment (a lazy regex match
from a slash-star to the first following star-slash; an unclosed opener is
left verbatim) and then every line comment (from a double dash to the end
of the line) is replaced by one space. -/

/-- State machine for the block-comment replacement.  While inside a
candidate comment the consumed characters are kept (reversed) in pending so
that an unclosed comment can be restored verbatim, exactly as the
unmatched regex leaves the text unchanged.  The first argument is fuel for
structural recursion: every step consumes one unit of fuel and at least
one character, so fuel equal to the input length never runs out and the
exhaustion branches are unreachable. -/
def stripBlockCommentsGo : Nat → Bool → List Char → List Char → List Char
  | _, false, _, [] => []
  | _, true, pending, [] => pending.reverse
  | 0, false, _, rest => rest
  | 0, true, pending, rest => pending.reverse ++ rest
  | fuel + 1, false, p, c :: rest =>
    match rest with
    | c2 :: rest2 =>
      if c = '/' && c2 = '*' then stripBlockCommentsGo fuel true ['*', '/'] rest2
      else c :: stripBlockCommentsGo fuel false p rest
    | [] => [c]
  | fuel + 1, true, pending, c :: rest =>
    match rest with
    | c2 :: rest2 =>
      if c = '*' && c2 = '/' then ' ' :: stripBlockCommentsGo fuel false [] rest2
      else stripBlockCommentsGo fuel true (c :: pending) rest
    | [] => (c :: pending).reverse

def stripBlockComments (l : List Char) : List Char :=
  stripBlockCommentsGo l.length false [] l

/-- State machine for the line-comment replacement: a double dash opens a
comment that is replaced by one space up to (excluding) the next newline.
Fuel as in stripBlockCommentsGo. -/
def stripLineCommentsGo : Nat → Bool → List Char → List Char
  | _, _, [] => []
  | 0, _, rest => rest
  | fuel + 1, true, c :: rest =>
    if c = newlineChar then newlineChar :: stripLineCommentsGo fuel false rest
    else stripLineCommentsGo fuel true rest
  | fuel + 1, false, c :: rest =>
    match rest with
    | c2 :: rest2 =>
      if c = '-' && c2 = '-' then ' ' :: stripLineCommentsGo fuel true rest2
      else c :: stripLineCommentsGo fuel false rest
    | [] => [c]

def stripLineComments (l : List Char) : List Char :=
  stripLineCommentsGo l.length false l

def removeSqlCommentsL (l : List Char) : List Char :=
  stripLineComments (stripBlockComments l)

def removeSqlComments (s : String) : String := String.mk (removeSqlCommentsL s.data)

def isCommentOnlySqlFragmentL (l : List Char) : Bool :=
  (trimL (removeSqlCommentsL l)).isEmpty

def isCommentOnlySqlFragment (s : String) : Bool := isCommentOnlySqlFragmentL s.data

/-! ## Quoted-literal collapsing

Models the two regex replacements that collapse a quoted literal to an
empty quoted literal.  scanQuoted runs on the text after an opening quote
and returns the text after the closing quote of the match, following the
greedy ordered-alternative backtracking of the regex engine: a doubled
quote is consumed as an escape when the rest still matches, otherwise the
first quote of the pair closes the literal. -/

def scanQuoted (q : Char) : List Char → Option (List Char)
  | [] => none
  | c :: rest =>
    if c = q then
      match rest with
      | c2 :: rest2 =>
        if c2 = q then
          match scanQuoted q rest2 with
          | some r => some r
          | none => some rest
        else some rest
      | [] => some []
    else scanQuoted q rest

/-- Fuel-indexed global replacement loop.  Each step consumes at least one
character, so fuel equal to the length of the input never runs out. -/
def collapseQuotedGo (q : Char) : Nat → List Char → List Char
  | 0, l => l
  | _ + 1, [] => []
  | fuel + 1, c :: rest =>
    if c = q then
      match scanQuoted q rest with
      | some r => q :: q :: collapseQuotedGo q fuel r
      | none => c :: collapseQuotedGo q fuel rest
    else c :: collapseQuotedGo q fuel rest

def collapseQuoted (q : Char) (l : List Char) : List Char := collapseQuotedGo q l.length l

/-! ## Keyword extraction -/

def MUTATING_SQL_KEYWORDS : List String :=
  ["INSERT", "UPDATE", "DELETE", "MERGE", "TRUNCATE", "DROP", "ALTER", "CREATE",
   "RENAME", "GRANT", "REVOKE", "COMMENT", "BEGIN", "DECLARE", "CALL", "EXECUTE"]

def SAFE_SQL_LEADING_KEYWORDS : List String :=
  ["SELECT", "WITH", "EXPLAIN", "DESCRIBE", "DESC"]

def NON_STANDALONE_SQL_KEYWORDS : List String :=
  ["END", "EXCEPTION", "WHEN", "ELSE", "ELSIF", "LOOP", "THEN"]

/-- JavaScript word character, as used by a word boundary in a regex. -/
def isWordChar (c : Char) : Bool :=
  ('A' ≤ c && c ≤ 'Z') || ('a' ≤ c && c ≤ 'z') || ('0' ≤ c && c ≤ '9') || c = '_'

/-- Maximal runs of word characters, in order.  A global regex of the form
word-boundary keyword word-boundary matches exactly those maximal runs that
equal the keyword, so keyword search reduces to filtering these runs. -/
def wordRunsGo : List Char → List Char → List (List Char)
  | cur, [] => if cur.isEmpty then [] else [cur.reverse]
  | cur, c :: rest =>
    if isWordChar c then wordRunsGo (c :: cur) rest
    else if cur.isEmpty then wordRunsGo [] rest
    else cur.reverse :: wordRunsGo [] rest

def wordRuns (l : List Char) : List (List Char) := wordRunsGo [] l

/-- First-occurrence deduplication, the order produced by spreading a
JavaScript Set built from a match list. -/
def dedupKeepFirstGo : List String → List String → List String
  | _, [] => []
  | seen, x :: xs =>
    if x ∈ seen then dedupKeepFirstGo seen xs
    else x :: dedupKeepFirstGo (x :: seen) xs

def dedupKeepFirst (l : List String) : List String := dedupKeepFirstGo [] l

def extractMutatingSqlKeywordsL (l : List Char) : List String :=
  let normalized :=
    toUpperL (collapseQuoted doubleQuoteChar (collapseQuoted singleQuoteChar
      (removeSqlCommentsL l)))
  dedupKeepFirst
    (((wordRuns normalized).map String.mk).filter
      (fun w => MUTATING_SQL_KEYWORDS.contains w))

def extractMutatingSqlKeywords (s : String) : List String :=
  extractMutatingSqlKeywordsL s.data

def isUpperAZ (c : Char) : Bool := 'A' ≤ c && c ≤ 'Z'

def extractLeadingSqlKeywordL (l : List Char) : Option String :=
  let normalized := toUpperL (trimStartL (removeSqlCommentsL l))
  let run := normalized.takeWhile isUpperAZ
  if run.isEmpty then none else some (String.mk run)

def extractLeadingSqlKeyword (s : String) : Option String :=
  extractLeadingSqlKeywordL s.data

/-! ## Execution preflight -/

structure ConfirmAssessment where
  shouldConfirm : Bool
  reasons : List String
  deriving DecidableEq, Repr

def shouldConfirmBeforeExecution (sql : String) : ConfirmAssessment :=
  let reasons := extractMutatingSqlKeywords sql
  if 0 < reasons.length then ConfirmAssessment.mk true reasons
  else
    match extractLeadingSqlKeyword sql with
    | none => ConfirmAssessment.mk false []
    | some leadingKeyword =>
      if SAFE_SQL_LEADING_KEYWORDS.contains leadingKeyword then
        ConfirmAssessment.mk false []
      else ConfirmAssessment.mk true [leadingKeyword]

/-- Batch aggregation: the reasons of every flagged statement, deduplicated
keeping first occurrences, exactly the incremental seen-set union of the
source loop. -/
def collectExecutionPreflight (statements : List String) : ConfirmAssessment :=
  let reasons :=
    dedupKeepFirst (statements.foldl
      (fun acc statement =>
        let preflight := shouldConfirmBeforeExecution statement
        if preflight.shouldConfirm then acc ++ preflight.reasons else acc)
      [])
  ConfirmAssessment.mk (0 < reasons.length) reasons

/-! ## Statement splitter -/

/-- Flush the accumulated buffer: the trimmed buffer is discarded when it
is empty or reduces to nothing once comments are stripped. -/
def pushSqlBuffer (statements : List (List Char)) (buffer : List Char) :
    List (List Char) :=
  let statement := trimL buffer
  if statement.isEmpty || isCommentOnlySqlFragmentL statement then statements
  else statements ++ [statement]

inductive SqlScanMode
  | outside
  | singleQ
  | doubleQ
  | lineC
  | blockC
  deriving DecidableEq, Repr

/-- Character scanner of splitSqlStatements.  The four comment and quote
modes mirror the four boolean flags of the source; two-character tokens
consume both characters in one step exactly as the index skip does.  The
first argument is fuel for structural recursion: every step consumes one
unit of fuel and at least one character, so fuel equal to the input length
never runs out and the exhaustion branch is unreachable. -/
def splitSqlGo : Nat → SqlScanMode → List (List Char) → List Char → List Char →
    List (List Char)
  | _, _, statements, buffer, [] => pushSqlBuffer statements buffer
  | 0, _, statements, buffer, rest => pushSqlBuffer statements (buffer ++ rest)
  | fuel + 1, SqlScanMode.lineC, statements, buffer, c :: rest =>
    if c = newlineChar then
      splitSqlGo fuel SqlScanMode.outside statements (buffer ++ [c]) rest
    else splitSqlGo fuel SqlScanMode.lineC statements (buffer ++ [c]) rest
  | fuel + 1, SqlScanMode.blockC, statements, buffer, c :: rest =>
    match rest with
    | c2 :: rest2 =>
      if c = '*' && c2 = '/' then
        splitSqlGo fuel SqlScanMode.outside statements (buffer ++ [c, c2]) rest2
      else splitSqlGo fuel SqlScanMode.blockC statements (buffer ++ [c]) rest
    | [] => pushSqlBuffer statements (buffer ++ [c])
  | fuel + 1, SqlScanMode.singleQ, statements, buffer, c :: rest =>
    if c = singleQuoteChar then
      match rest with
      | c2 :: rest2 =>
        if c2 = singleQuoteChar then
          splitSqlGo fuel SqlScanMode.singleQ statements (buffer ++ [c, c2]) rest2
        else splitSqlGo fuel SqlScanMode.outside statements (buffer ++ [c]) rest
      | [] => pushSqlBuffer statements (buffer ++ [c])
    else splitSqlGo fuel SqlScanMode.singleQ statements (buffer ++ [c]) rest
  | fuel + 1, SqlScanMode.doubleQ, statements, buffer, c :: rest =>
    if c = doubleQuoteChar then
      match rest with
      | c2 :: rest2 =>
        if c2 = doubleQuoteChar then
          splitSqlGo fuel SqlScanMode.doubleQ statements (buffer ++ [c, c2]) rest2
        else splitSqlGo fuel SqlScanMode.outside statements (buffer ++ [c]) rest
      | [] => pushSqlBuffer statements (buffer ++ [c])
    else splitSqlGo fuel SqlScanMode.doubleQ statements (buffer ++ [c]) rest
  | fuel + 1, SqlScanMode.outside, statements, buffer, c :: rest =>
    match rest with
    | c2 :: rest2 =>
      if c = '-' && c2 = '-' then
        splitSqlGo fuel SqlScanMode.lineC statements (buffer ++ [c, c2]) rest2
      else if c = '/' && c2 = '*' then
        splitSqlGo fuel SqlScanMode.blockC statements (buffer ++ [c, c2]) rest2
      else if c = singleQuoteChar then
        splitSqlGo fuel SqlScanMode.singleQ statements (buffer ++ [c]) rest
      else if c = doubleQuoteChar then
        splitSqlGo fuel SqlScanMode.doubleQ statements (buffer ++ [c]) rest
      else if c = ';' then
        splitSqlGo fuel SqlScanMode.outside (pushSqlBuffer statements buffer) [] rest
      else splitSqlGo fuel SqlScanMode.outside statements (buffer ++ [c]) rest
    | [] =>
      if c = singleQuoteChar then pushSqlBuffer statements (buffer ++ [c])
      else if c = doubleQuoteChar then pushSqlBuffer statements (buffer ++ [c])
      else if c = ';' then pushSqlBuffer (pushSqlBuffer statements buffer) []
      else pushSqlBuffer statements (buffer ++ [c])

def splitSqlStatementsL (l : List Char) : List (List Char) :=
  splitSqlGo l.length SqlScanMode.outside [] [] l

def splitSqlStatements (s : String) : List String :=
  (splitSqlStatementsL s.data).map String.mk

/-! ## Statement normalization and execution splitting -/

def dropTrailingWhile (p : Char → Bool) (l : List Char) : List Char :=
  (l.reverse.dropWhile p).reverse

/-- Model of replacing the anchored regex of one-or-more semicolons
followed by whitespace at the end of the string with nothing: when such a
run exists it is removed together with the trailing whitespace, otherwise
the string is unchanged. -/
def stripTrailingSemicolonRunL (l : List Char) : List Char :=
  let afterWs := dropTrailingWhile isJsWhitespace l
  let afterSemis := dropTrailingWhile (fun c => c = ';') afterWs
  if afterSemis.length = afterWs.length then l else afterSemis

def normalizeStatementForExecutionL (l : List Char) : List Char :=
  let trimmed := trimL l
  if trimmed.isEmpty then []
  else
    match extractLeadingSqlKeywordL trimmed with
    | some kw =>
      if kw = "BEGIN" || kw = "DECLARE" then trimmed
      else trimEndL (stripTrailingSemicolonRunL trimmed)
    | none => trimEndL (stripTrailingSemicolonRunL trimmed)

def normalizeStatementForExecution (s : String) : String :=
  String.mk (normalizeStatementForExecutionL s.data)

/-- The normalized nonempty fragments produced by the splitter on the
trimmed worksheet text. -/
def executionCandidates (l : List Char) : List (List Char) :=
  ((splitSqlStatementsL (trimL l)).map normalizeStatementForExecutionL).filter
    (fun statement => !statement.isEmpty)

/-- True when some fragment has no leading keyword or a leading keyword
that cannot stand alone outside an enclosing block. -/
def hasNonStandaloneFragment (candidates : List (List Char)) : Bool :=
  candidates.any fun statement =>
    match extractLeadingSqlKeywordL statement with
    | none => true
    | some keyword => NON_STANDALONE_SQL_KEYWORDS.contains keyword

def splitQueryTextForExecutionL (l : List Char) : List (List Char) :=
  let trimmed := trimL l
  if trimmed.isEmpty then []
  else
    let candidates := executionCandidates l
    if candidates.length ≤ 1 then
      let fallback := normalizeStatementForExecutionL (candidates.headD trimmed)
      if fallback.isEmpty then [] else [fallback]
    else if hasNonStandaloneFragment candidates then
      let fallback := normalizeStatementForExecutionL trimmed
      if fallback.isEmpty then [] else [fallback]
    else candidates

def splitQueryTextForExecution (s : String) : List String :=
  (splitQueryTextForExecutionL s.data).map String.mk

/-! ## Query row limit -/

/-- JavaScript number: a finite double (modelled exactly by a rational) or
one of the three non-finite values. -/
inductive JsNumber
  | finite (q : ℚ)
  | nan
  | posInf
  | negInf
  deriving DecidableEq, Repr

/-- Math.trunc: rounding toward zero. -/
def jsTrunc (q : ℚ) : ℤ := if 0 ≤ q then ⌊q⌋ else ⌈q⌉

def DEFAULT_QUERY_ROW_LIMIT : ℤ := 1000

def MAX_QUERY_ROW_LIMIT : ℤ := 10000

def clampQueryRowLimit : JsNumber → ℤ
  | JsNumber.finite q => min (max (jsTrunc q) 1) MAX_QUERY_ROW_LIMIT
  | JsNumber.nan => DEFAULT_QUERY_ROW_LIMIT
  | JsNumber.posInf => DEFAULT_QUERY_ROW_LIMIT
  | JsNumber.negInf => DEFAULT_QUERY_ROW_LIMIT

/-! ## Result panes and query tabs -/

structure OracleQueryResult where
  columns : List String
  rows : List (List String)
  rowsAffected : Option ℤ
  message : String
  deriving DecidableEq, Repr

structure WorkspaceQueryResultPane where
  id : String
  title : String
  queryResult : Option OracleQueryResult
  errorMessage : String
  deriving DecidableEq, Repr

structure WorkspaceQueryTab where
  id : String
  title : String
  queryText : String
  resultPanes : List WorkspaceQueryResultPane
  activeResultPaneId : String
  nextResultPaneNumber : Nat
  deriving DecidableEq, Repr

def buildQueryTabId (tabNumber : Nat) : String := "query:" ++ toString tabNumber

def buildQueryResultPaneId (tabId : String) (paneNumber : Nat) : String :=
  tabId ++ ":result:" ++ toString paneNumber

def createQueryResultPane (tabId : String) (paneNumber : Nat) :
    WorkspaceQueryResultPane :=
  WorkspaceQueryResultPane.mk (buildQueryResultPaneId tabId paneNumber)
    ("Result " ++ toString paneNumber) none ""

def buildDefaultSchemaQuery (schema : String) : String :=
  let normalized :=
    if (toUpperL (trimL schema.data)).isEmpty then "YOUR_SCHEMA"
    else String.mk (toUpperL (trimL schema.data))
  "select object_name, object_type from all_objects where owner = " ++
    sqlQuoteStr ++ normalized ++ sqlQuoteStr ++
    " order by object_type, object_name fetch first 100 rows only"

def createQueryTab (tabNumber : Nat) (schema : String) : WorkspaceQueryTab :=
  let tabId := buildQueryTabId tabNumber
  let firstResultPane := createQueryResultPane tabId 1
  WorkspaceQueryTab.mk tabId ("Query " ++ toString tabNumber)
    (buildDefaultSchemaQuery schema) [firstResultPane] firstResultPane.id 2

/-- Replace the result panes of a tab for a run of statementCount
statements: max 1 statementCount fresh empty panes numbered from one. -/
def prepareQueryResultPanes (tab : WorkspaceQueryTab) (statementCount : Nat) :
    WorkspaceQueryTab :=
  let paneCount := max 1 statementCount
  let panes := (List.range paneCount).map
    (fun index => createQueryResultPane tab.id (index + 1))
  { tab with
      resultPanes := panes
      activeResultPaneId := (panes.headD (createQueryResultPane tab.id 1)).id
      nextResultPaneNumber := paneCount + 1 }

/-! ## Query batch execution

The session gateway is an external collaborator; it is modelled by an
oracle mapping the statement index, the statement text, the row limit and
the allow-destructive flag to a result or an error message. -/

def SqlGateway : Type :=
  Nat → String → ℤ → Bool → Except String OracleQueryResult

def writeSuccessPane (panes : List WorkspaceQueryResultPane) (index : Nat)
    (result : OracleQueryResult) : List WorkspaceQueryResultPane :=
  match panes[index]? with
  | none => panes
  | some pane =>
    panes.set index { pane with queryResult := some result, errorMessage := "" }

structure RunLoopResult where
  panes : List WorkspaceQueryResultPane
  completed : Nat
  failed : Option String
  lastMessage : String
  deriving Repr

/-- The sequential execution loop of runQuery: statements are dispatched in
order, each success writes its pane, the first failure stops the loop with
the count of completed statements. -/
def runStatementsGo (exec : SqlGateway) (rowLimit : ℤ) (allowDestructive : Bool) :
    List String → Nat → List WorkspaceQueryResultPane → String → RunLoopResult
  | [], index, panes, lastMessage => RunLoopResult.mk panes index none lastMessage
  | sql :: rest, index, panes, lastMessage =>
    match exec index sql rowLimit allowDestructive with
    | Except.ok result =>
      runStatementsGo exec rowLimit allowDestructive rest (index + 1)
        (writeSuccessPane panes index result) result.message
    | Except.error message =>
      RunLoopResult.mk panes index (some message) lastMessage

structure QueryBatchResult where
  tab : WorkspaceQueryTab
  errorMessage : String
  statusMessage : String
  deriving Repr

/-- The post-confirmation part of runQuery: prepare one pane per statement,
run the loop, and on failure write the error message into the pane at the
index of the failing statement and force that pane active. -/
def runQueryBatch (tab : WorkspaceQueryTab) (exec : SqlGateway) (rowLimit : ℤ)
    (allowDestructive : Bool) (statements : List String) (status0 : String) :
    QueryBatchResult :=
  let prepared := prepareQueryResultPanes tab statements.length
  let loop := runStatementsGo exec rowLimit allowDestructive statements 0
    prepared.resultPanes ""
  match loop.failed with
  | none =>
    let status :=
      if 1 < statements.length then
        "Executed " ++ toString statements.length ++ " statements."
      else loop.lastMessage
    QueryBatchResult.mk { prepared with resultPanes := loop.panes } "" status
  | some message =>
    match loop.panes[loop.completed]? with
    | some failedPane =>
      let panes2 := loop.panes.set loop.completed
        { failedPane with errorMessage := message }
      let status :=
        if 1 < statements.length then
          "Execution stopped at statement " ++ toString (loop.completed + 1) ++
            " of " ++ toString statements.length ++ "."
        else status0
      QueryBatchResult.mk
        { prepared with resultPanes := panes2, activeResultPaneId := failedPane.id }
        message status
    | none =>
      QueryBatchResult.mk { prepared with resultPanes := loop.panes } message status0

structure RunQueryResult where
  tab : WorkspaceQueryTab
  queryRowLimit : JsNumber
  sentRowLimit : ℤ
  errorMessage : String
  statusMessage : String
  cancelled : Bool
  executed : Bool
  deriving Repr

/-- Full runQuery model.  The row limit setting is clamped and written back
when it changed; the split statements are assessed; when confirmation is
required the user answer is the confirmResponse parameter; execution then
passes the clamped limit to every dispatched statement. -/
def runQuery (tab : WorkspaceQueryTab) (queryRowLimit : JsNumber)
    (confirmResponse : Bool) (exec : SqlGateway) (status0 : String) :
    RunQueryResult :=
  let effectiveRowLimit := clampQueryRowLimit queryRowLimit
  let newRowLimit :=
    if JsNumber.finite (effectiveRowLimit : ℚ) = queryRowLimit then queryRowLimit
    else JsNumber.finite (effectiveRowLimit : ℚ)
  let statements := splitQueryTextForExecution tab.queryText
  if statements.isEmpty then
    RunQueryResult.mk tab newRowLimit effectiveRowLimit "Query cannot be empty."
      status0 false false
  else
    let preflight := collectExecutionPreflight statements
    if preflight.shouldConfirm && !confirmResponse then
      RunQueryResult.mk tab newRowLimit effectiveRowLimit ""
        "Execution cancelled." true false
    else
      let allowDestructive := preflight.shouldConfirm
      let batch := runQueryBatch tab exec effectiveRowLimit allowDestructive
        statements status0
      RunQueryResult.mk batch.tab newRowLimit effectiveRowLimit
        batch.errorMessage batch.statusMessage false true

/-! ## Worksheet tab registry -/

structure OracleObjectEntry where
  schema : String
  objectType : String
  objectName : String
  deriving DecidableEq, Repr

inductive ObjectDetailTabId
  | data
  | ddl
  | metadata
  deriving DecidableEq, Repr

def normalizeObjectType (objectType : String) : String :=
  String.mk (toUpperL (trimL objectType.data))

def canPreviewObjectData (objectType : String) : Bool :=
  normalizeObjectType objectType = "TABLE" || normalizeObjectType objectType = "VIEW"

def isTableObject (objectType : String) : Bool :=
  normalizeObjectType objectType = "TABLE"

def getObjectDetailTabIds (object : OracleObjectEntry) : List ObjectDetailTabId :=
  (if canPreviewObjectData object.objectType then [ObjectDetailTabId.data] else [])
    ++ [ObjectDetailTabId.ddl, ObjectDetailTabId.metadata]

def getDefaultObjectDetailTabId (object : OracleObjectEntry) : ObjectDetailTabId :=
  if canPreviewObjectData object.objectType then ObjectDetailTabId.data
  else ObjectDetailTabId.ddl

def isObjectDetailTabSupported (object : OracleObjectEntry)
    (tabId : ObjectDetailTabId) : Bool :=
  (getObjectDetailTabIds object).contains tabId

def buildDdlTabId (object : OracleObjectEntry) : String :=
  "ddl:" ++ object.schema ++ ":" ++ object.objectType ++ ":" ++ object.objectName

structure WorkspaceDdlTab where
  id : String
  object : OracleObjectEntry
  ddlText : String
  focusLine : Option ℤ
  focusToken : Nat
  activeDetailTabId : ObjectDetailTabId
  dataResult : Option OracleQueryResult
  metadataResult : Option OracleQueryResult
  loadingData : Bool
  loadingMetadata : Bool
  deriving DecidableEq, Repr

def SEARCH_TAB_ID : String := "search:code"

structure WorkspaceState where
  ddlTabs : List WorkspaceDdlTab
  queryTabIds : List String
  activeWorkspaceTabId : String
  selectedObject : Option OracleObjectEntry
  errorMessage : String
  statusMessage : String
  deriving Repr

/-- Update the first element satisfying the predicate, leaving the rest
unchanged; this is the find-then-mutate idiom of the source. -/
def updateFirstMatch {α : Type} (p : α → Bool) (f : α → α) : List α → List α
  | [] => []
  | x :: xs => if p x then f x :: xs else x :: updateFirstMatch p f xs

/-- Model of activateWorkspaceTab without the asynchronous detail loading,
which never changes the tab list. -/
def activateWorkspaceTab (st : WorkspaceState) (tabId : String) : WorkspaceState :=
  let st1 := { st with activeWorkspaceTabId := tabId }
  if tabId = SEARCH_TAB_ID then st1
  else if st1.queryTabIds.contains tabId then st1
  else
    match st1.ddlTabs.find? (fun tab => tab.id = tabId) with
    | some tab => { st1 with selectedObject := some tab.object }
    | none => st1

/-- The field updates applied to an existing detail tab when its DDL is
reloaded. -/
def loadDdlUpdateTab (object : OracleObjectEntry) (ddl : String)
    (targetLine : Option ℤ) (detailTabId : ObjectDetailTabId)
    (tab : WorkspaceDdlTab) : WorkspaceDdlTab :=
  let tab1 :=
    { tab with
        ddlText := ddl
        object := object
        focusLine := targetLine
        focusToken := tab.focusToken + (if targetLine.isNone then 0 else 1) }
  let tab2 :=
    { tab1 with
        activeDetailTabId :=
          if isObjectDetailTabSupported tab1.object tab1.activeDetailTabId then
            tab1.activeDetailTabId
          else detailTabId }
  if targetLine.isNone then tab2
  else { tab2 with activeDetailTabId := ObjectDetailTabId.ddl }

/-- Model of loadDdl.  The DDL fetch of the session facade is the fetch
parameter; on success the tab with the derived id is updated in place when
it exists and appended otherwise, then activated. -/
def loadDdl (st : WorkspaceState) (object : OracleObjectEntry)
    (targetLine : Option ℤ) (fetch : Except String String) : WorkspaceState :=
  let st1 := { st with errorMessage := "", selectedObject := some object }
  match fetch with
  | Except.error message => { st1 with errorMessage := message }
  | Except.ok ddl =>
    let tabId := buildDdlTabId object
    let detailTabId :=
      if targetLine.isNone then getDefaultObjectDetailTabId object
      else ObjectDetailTabId.ddl
    let st2 :=
      if st1.ddlTabs.any (fun tab => tab.id = tabId) then
        { st1 with
            ddlTabs := updateFirstMatch (fun tab => tab.id = tabId)
              (loadDdlUpdateTab object ddl targetLine detailTabId) st1.ddlTabs }
      else
        { st1 with
            ddlTabs := st1.ddlTabs ++
              [WorkspaceDdlTab.mk tabId object ddl targetLine
                (if targetLine.isNone then 0 else 1) detailTabId none none
                false false] }
    let st3 := activateWorkspaceTab st2 tabId
    { st3 with
        statusMessage := "Loaded DDL: " ++ object.schema ++ "." ++ object.objectName }

/-- The field updates applied to an existing detail tab when its object is
reopened from the explorer. -/
def openObjectUpdateTab (object : OracleObjectEntry)
    (existingTab : WorkspaceDdlTab) : WorkspaceDdlTab :=
  let tab1 := { existingTab with object := object }
  if isObjectDetailTabSupported tab1.object tab1.activeDetailTabId then tab1
  else { tab1 with activeDetailTabId := getDefaultObjectDetailTabId tab1.object }

/-- Model of openObjectFromExplorer: when a tab with the derived id exists
it is updated and reactivated, otherwise the DDL is loaded, creating the
tab. -/
def openObjectFromExplorer (st : WorkspaceState) (object : OracleObjectEntry)
    (fetch : Except String String) : WorkspaceState :=
  let st1 := { st with selectedObject := some object }
  let tabId := buildDdlTabId object
  if st1.ddlTabs.any (fun tab => tab.id = tabId) then
    let updated :=
      updateFirstMatch (fun tab => tab.id = tabId) (openObjectUpdateTab object)
        st1.ddlTabs
    activateWorkspaceTab { st1 with ddlTabs := updated } tabId
  else loadDdl st1 object none fetch

/-- Model of closeDdlTab restricted to the tab list (the fallback
activation mirrors the source). -/
def closeDdlTab (st : WorkspaceState) (tabId : String) : WorkspaceState :=
  match st.ddlTabs.findIdx? (fun tab => tab.id = tabId) with
  | none => st
  | some index =>
    let wasActive := st.activeWorkspaceTabId = tabId
    let st1 := { st with ddlTabs := st.ddlTabs.eraseIdx index }
    if wasActive then
      match st1.ddlTabs[index - 1]? with
      | some fallbackTab => activateWorkspaceTab st1 fallbackTab.id
      | none =>
        activateWorkspaceTab st1 (st1.queryTabIds.headD "query:1")
    else st1

def ddlTabIdsNodup (st : WorkspaceState) : Prop :=
  (st.ddlTabs.map (fun tab => tab.id)).Nodup

def ddlTabsWellKeyed (st : WorkspaceState) : Prop :=
  ∀ tab ∈ st.ddlTabs, tab.id = buildDdlTabId tab.object

/-! ## Object data editor -/

def escapeDoubleQuotesL : List Char → List Char
  | [] => []
  | c :: rest =>
    if c = doubleQuoteChar then
      doubleQuoteChar :: doubleQuoteChar :: escapeDoubleQuotesL rest
    else c :: escapeDoubleQuotesL rest

def escapeSingleQuotesL : List Char → List Char
  | [] => []
  | c :: rest =>
    if c = singleQuoteChar then
      singleQuoteChar :: singleQuoteChar :: escapeSingleQuotesL rest
    else c :: escapeSingleQuotesL rest

def toQuotedIdentifier (name : String) : String :=
  String.mk (doubleQuoteChar :: (escapeDoubleQuotesL name.data ++ [doubleQuoteChar]))

def toSqlStringLiteral (value : String) : String :=
  String.mk (singleQuoteChar :: (escapeSingleQuotesL value.data ++ [singleQuoteChar]))

def toSqlDataLiteral (value : String) : String :=
  if value = "" then "NULL" else toSqlStringLiteral value

def OBJECT_DATA_ROW_ID_COLUMN : String := "__CLARITY_ROWID__"

def hasObjectDataRowIdColumn (result : OracleQueryResult) : Bool :=
  let firstColumn :=
    String.mk (toUpperL (trimL
      ((result.columns.headD "").data.filter (fun c => c ≠ doubleQuoteChar))))
  firstColumn = String.mk (toUpperL OBJECT_DATA_ROW_ID_COLUMN.data) ||
    firstColumn = "ROWID"

/-- Indexes of the editable columns whose draft value differs from the
snapshot row (the snapshot row carries the hidden row identity at position
zero, so editable column index plus one addresses it). -/
def changedValueIndexes (row values : List String) : List Nat :=
  (List.range values.length).filter
    (fun index => row[index + 1]? ≠ values[index]?)

/-- One rendered assignment of an UPDATE SET clause. -/
def updateSetClauseSql (column value : String) : String :=
  toQuotedIdentifier column ++ " = " ++ toSqlDataLiteral value

def buildUpdateRowSql (object : OracleObjectEntry) (editableColumns row values :
    List String) (changedIndexes : List Nat) : String :=
  let setClauses := String.intercalate ", "
    (changedIndexes.map (fun index =>
      updateSetClauseSql (editableColumns.getD index "") (values.getD index "")))
  "update " ++ toQuotedIdentifier object.schema ++ "." ++
    toQuotedIdentifier object.objectName ++ " set " ++ setClauses ++
    " where rowid = chartorowid(" ++ toSqlStringLiteral (row.getD 0 "") ++ ")"

/-- Indexes of the new-row cells holding a non-blank value. -/
def providedValueIndexes (values : List String) : List Nat :=
  (List.range values.length).filter (fun index => values.getD index "" ≠ "")

def buildInsertRowSql (object : OracleObjectEntry) (editableColumns values :
    List String) (providedIndexes : List Nat) : String :=
  let columnsSql := String.intercalate ", "
    (providedIndexes.map (fun index => toQuotedIdentifier (editableColumns.getD index "")))
  let valuesSql := String.intercalate ", "
    (providedIndexes.map (fun index => toSqlDataLiteral (values.getD index "")))
  "insert into " ++ toQuotedIdentifier object.schema ++ "." ++
    toQuotedIdentifier object.objectName ++ " (" ++ columnsSql ++ ") values (" ++
    valuesSql ++ ")"

/-- Outcome classification of one row save: a statement to run through the
gateway, a success without a statement (no changes), or a validation
failure without a statement. -/
inductive RowSaveAction
  | issue (sql : String)
  | succeedWithoutSql (statusMessage : String)
  | failWithoutSql (errorMessage : String)
  deriving DecidableEq, Repr

/-- Pure core of updateActiveObjectDataRow: the guards, the changed-column
computation and the generated statement.  The session, active-tab and
table-object guards of the source are context preconditions of the data
tab being editable and are outside this model. -/
def updateActiveObjectDataRowAction (object : OracleObjectEntry)
    (dataResult : Option OracleQueryResult) (rowIndex : Nat)
    (values : List String) : RowSaveAction :=
  match dataResult with
  | none =>
    RowSaveAction.failWithoutSql
      "No table data is loaded. Refresh the Data tab and try again."
  | some result =>
    if !hasObjectDataRowIdColumn result then
      RowSaveAction.failWithoutSql
        "Row editing is not ready yet. Refresh the Data tab and try again."
    else
      match result.rows[rowIndex]? with
      | none =>
        RowSaveAction.failWithoutSql
          "Unable to save row: row no longer exists in the current result set."
      | some row =>
        let rowId := row.getD 0 ""
        let editableColumns := result.columns.drop 1
        if rowId = "" || editableColumns.length ≠ values.length then
          RowSaveAction.failWithoutSql
            "Unable to save row: data preview shape changed. Refresh and try again."
        else
          let changedIndexes := changedValueIndexes row values
          if changedIndexes.isEmpty then
            RowSaveAction.succeedWithoutSql "No data changes to save."
          else
            RowSaveAction.issue
              (buildUpdateRowSql object editableColumns row values changedIndexes)

/-- Pure core of insertActiveObjectDataRow. -/
def insertActiveObjectDataRowAction (object : OracleObjectEntry)
    (dataResult : Option OracleQueryResult) (values : List String) :
    RowSaveAction :=
  match dataResult with
  | none =>
    RowSaveAction.failWithoutSql
      "No table data is loaded. Refresh the Data tab and try again."
  | some result =>
    if !hasObjectDataRowIdColumn result then
      RowSaveAction.failWithoutSql
        "Row editing is not ready yet. Refresh the Data tab and try again."
    else
      let editableColumns := result.columns.drop 1
      if editableColumns.length ≠ values.length then
        RowSaveAction.failWithoutSql
          "Unable to insert row: data preview shape changed. Refresh and try again."
      else
        let providedIndexes := providedValueIndexes values
        if providedIndexes.isEmpty then
          RowSaveAction.failWithoutSql
            "Enter at least one column value before committing a new row."
        else
          RowSaveAction.issue
            (buildInsertRowSql object editableColumns values providedIndexes)

/-- Successful update writes the changed values back into the snapshot row. -/
def applyUpdateToRow (row values : List String) (changedIndexes : List Nat) :
    List String :=
  changedIndexes.foldl (fun r index => r.set (index + 1) (values.getD index "")) row

def applyUpdateToResult (result : OracleQueryResult) (rowIndex : Nat)
    (values : List String) : OracleQueryResult :=
  match result.rows[rowIndex]? with
  | none => result
  | some row =>
    { result with
        rows := result.rows.set rowIndex
          (applyUpdateToRow row values (changedValueIndexes row values)) }

/-- The rows of the displayed detail result: the hidden identity column is
stripped from every snapshot row. -/
def strippedSourceRows (dataResult : Option OracleQueryResult) :
    List (List String) :=
  match dataResult with
  | none => []
  | some result => result.rows.map (fun row => row.drop 1)

/-- Dirtiness of one draft row against the stripped snapshot, as computed
by the sheet component. -/
def isRowDirty (sourceRows draftRows : List (List String)) (rowIndex : Nat) :
    Bool :=
  match draftRows[rowIndex]? with
  | none => false
  | some draftRow =>
    match sourceRows[rowIndex]? with
    | none => draftRow.any (fun value => value ≠ "")
    | some sourceRow =>
      if sourceRow.length ≠ draftRow.length then true
      else
        (List.range sourceRow.length).any
          (fun colIndex => sourceRow[colIndex]? ≠ draftRow[colIndex]?)

def dirtyRowIndexes (sourceRows draftRows : List (List String)) : List Nat :=
  (List.range draftRows.length).filter (isRowDirty sourceRows draftRows)

structure CommitOutcome where
  issuedSql : List String
  savedRowIndexes : List Nat
  completedAllUpdates : Bool
  insertedRows : Bool
  dataResult : Option OracleQueryResult
  draftRows : List (List String)
  deriving Repr

/-- The commit loop: dirty indexes are processed in ascending order, an
existing row index becomes an UPDATE and a new row index an INSERT, the
first failure breaks the loop.  The gateway oracle reports success of one
issued statement. -/
def commitGo (gateway : String → Bool) (object : OracleObjectEntry)
    (originalRowCount : Nat) : List Nat → CommitOutcome → CommitOutcome
  | [], acc => acc
  | rowIndex :: rest, acc =>
    match acc.draftRows[rowIndex]? with
    | none => commitGo gateway object originalRowCount rest acc
    | some rowValues =>
      if rowIndex < originalRowCount then
        match updateActiveObjectDataRowAction object acc.dataResult rowIndex rowValues with
        | RowSaveAction.issue sql =>
          if gateway sql then
            commitGo gateway object originalRowCount rest
              { acc with
                  issuedSql := acc.issuedSql ++ [sql]
                  savedRowIndexes := acc.savedRowIndexes ++ [rowIndex]
                  dataResult := (acc.dataResult.map
                    (fun result => applyUpdateToResult result rowIndex rowValues)) }
          else
            { acc with
                issuedSql := acc.issuedSql ++ [sql]
                completedAllUpdates := false }
        | RowSaveAction.succeedWithoutSql _ =>
          commitGo gateway object originalRowCount rest
            { acc with savedRowIndexes := acc.savedRowIndexes ++ [rowIndex] }
        | RowSaveAction.failWithoutSql _ => { acc with completedAllUpdates := false }
      else
        match insertActiveObjectDataRowAction object acc.dataResult rowValues with
        | RowSaveAction.issue sql =>
          if gateway sql then
            commitGo gateway object originalRowCount rest
              { acc with
                  issuedSql := acc.issuedSql ++ [sql]
                  savedRowIndexes := acc.savedRowIndexes ++ [rowIndex]
                  insertedRows := true
                  draftRows := acc.draftRows.set rowIndex
                    (List.replicate rowValues.length "") }
          else
            { acc with
                issuedSql := acc.issuedSql ++ [sql]
                completedAllUpdates := false }
        | RowSaveAction.succeedWithoutSql _ =>
          commitGo gateway object originalRowCount rest
            { acc with savedRowIndexes := acc.savedRowIndexes ++ [rowIndex] }
        | RowSaveAction.failWithoutSql _ => { acc with completedAllUpdates := false }

/-- Model of commitDataChanges of the sheet component: compute the dirty
indexes against the stripped snapshot and run the loop. -/
def commitDataChanges (gateway : String → Bool) (object : OracleObjectEntry)
    (dataResult : Option OracleQueryResult) (draftRows : List (List String)) :
    CommitOutcome :=
  let sourceRows := strippedSourceRows dataResult
  let originalRowCount := sourceRows.length
  let dirtyIndexes := dirtyRowIndexes sourceRows draftRows
  commitGo gateway object originalRowCount dirtyIndexes
    (CommitOutcome.mk [] [] true false dataResult draftRows)

/-! ## Concrete fixtures for instantiations -/

def c3DemoResult : OracleQueryResult := OracleQueryResult.mk ["X"] [["1"]] none "ok"

def c3DemoExec : SqlGateway := fun index _ _ _ =>
  if index = 1 then Except.error "boom" else Except.ok c3DemoResult

def c6DemoObject : OracleObjectEntry := OracleObjectEntry.mk "S" "TABLE" "T"

def c6DemoResult : OracleQueryResult :=
  OracleQueryResult.mk ["ROWID", "C1", "C2"] [["r1", "a", "b"]] none "ok"

def c6DemoDraft : List (List String) := [["a", "x"], ["", "y"]]

def c8DemoEntry : OracleObjectEntry := OracleObjectEntry.mk "HR" "TABLE" "EMP"

def c8DemoTab : WorkspaceDdlTab :=
  WorkspaceDdlTab.mk (buildDdlTabId c8DemoEntry) c8DemoEntry "create table emp"
    none 0 ObjectDetailTabId.data none none false false

def c8DemoState : WorkspaceState :=
  WorkspaceState.mk [c8DemoTab] ["query:1"] "query:1" none "" ""

/-! # Theorems -/

/-- C1: splitSqlStatements treats a semicolon as a statement boundary only
when the scanner is outside single-quoted literals, double-quoted
identifiers, line comments and block comments: inside each of the four
modes a semicolon is appended to the current buffer and the statement list
is unchanged, while outside the buffer is flushed as a statement boundary;
in particular the two-statement example splits in two and the example with
a semicolon inside a single-quoted literal stays one statement. -/
theorem c1_split_semicolon_boundary :
    (∀ fuel statements buffer rest,
      splitSqlGo (fuel + 1) SqlScanMode.singleQ statements buffer (';' :: rest) =
        splitSqlGo fuel SqlScanMode.singleQ statements (buffer ++ [';']) rest)
  ∧ (∀ fuel statements buffer rest,
      splitSqlGo (fuel + 1) SqlScanMode.doubleQ statements buffer (';' :: rest) =
        splitSqlGo fuel SqlScanMode.doubleQ statements (buffer ++ [';']) rest)
  ∧ (∀ fuel statements buffer rest,
      splitSqlGo (fuel + 1) SqlScanMode.lineC statements buffer (';' :: rest) =
        splitSqlGo fuel SqlScanMode.lineC statements (buffer ++ [';']) rest)
  ∧ (∀ fuel statements buffer c2 rest,
      splitSqlGo (fuel + 1) SqlScanMode.blockC statements buffer (';' :: c2 :: rest) =
        splitSqlGo fuel SqlScanMode.blockC statements (buffer ++ [';']) (c2 :: rest))
  ∧ (∀ fuel statements buffer c2 rest,
      splitSqlGo (fuel + 1) SqlScanMode.outside statements buffer (';' :: c2 :: rest) =
        splitSqlGo fuel SqlScanMode.outside (pushSqlBuffer statements buffer) []
          (c2 :: rest))
  ∧ splitSqlStatements "SELECT 1; SELECT 2" = ["SELECT 1", "SELECT 2"]
  ∧ splitSqlStatements ("SELECT " ++ sqlQuoteStr ++ ";" ++ sqlQuoteStr ++ " FROM t") =
      ["SELECT " ++ sqlQuoteStr ++ ";" ++ sqlQuoteStr ++ " FROM t"] := by
  refine ⟨fun fuel statements buffer rest => rfl,
    fun fuel statements buffer rest => rfl,
    fun fuel statements buffer rest => rfl,
    fun fuel statements buffer c2 rest => rfl,
    fun fuel statements buffer c2 rest => rfl,
    by decide, by decide⟩

/-- C2: the preflight classifier flags a statement with the extracted
mutating keywords as reasons whenever that extraction is nonempty;
otherwise it falls back to the leading keyword, flagging it as sole reason
when it is not in the safe read set and accepting the statement when it is
safe or absent; the two spec examples follow. -/
theorem c2_preflight_two_tier :
    (∀ sql : String, extractMutatingSqlKeywords sql ≠ [] →
      shouldConfirmBeforeExecution sql =
        ConfirmAssessment.mk true (extractMutatingSqlKeywords sql))
  ∧ (∀ sql : String, extractMutatingSqlKeywords sql = [] →
      extractLeadingSqlKeyword sql = none →
      shouldConfirmBeforeExecution sql = ConfirmAssessment.mk false [])
  ∧ (∀ sql : String, ∀ keyword : String, extractMutatingSqlKeywords sql = [] →
      extractLeadingSqlKeyword sql = some keyword →
      SAFE_SQL_LEADING_KEYWORDS.contains keyword = true →
      shouldConfirmBeforeExecution sql = ConfirmAssessment.mk false [])
  ∧ (∀ sql : String, ∀ keyword : String, extractMutatingSqlKeywords sql = [] →
      extractLeadingSqlKeyword sql = some keyword →
      SAFE_SQL_LEADING_KEYWORDS.contains keyword = false →
      shouldConfirmBeforeExecution sql = ConfirmAssessment.mk true [keyword])
  ∧ shouldConfirmBeforeExecution "select * from t" = ConfirmAssessment.mk false []
  ∧ shouldConfirmBeforeExecution "update t set x=1" =
      ConfirmAssessment.mk true ["UPDATE"] := by
  refine ⟨?_, ?_, ?_, ?_, by decide, by decide⟩
  · intro sql h
    unfold shouldConfirmBeforeExecution
    simp only [if_pos (List.length_pos.mpr h)]
  · intro sql hm hl
    unfold shouldConfirmBeforeExecution
    simp only [hm, hl, List.length_nil, lt_self_iff_false, if_false]
  · intro sql keyword hm hl hsafe
    unfold shouldConfirmBeforeExecution
    simp only [hm, hl, hsafe, List.length_nil, lt_self_iff_false, if_false, if_true]
  · intro sql keyword hm hl hsafe
    unfold shouldConfirmBeforeExecution
    simp only [hm, hl, hsafe, List.length_nil, lt_self_iff_false, if_false,
      Bool.false_eq_true]

/-- Witness for C2 at concrete statements covering each hypothesis-bearing
case: a statement with a mutating keyword, one with no leading keyword,
one with a safe leading keyword and one with an unrecognized leading
keyword. -/
theorem c2_preflight_two_tier_witness :
    shouldConfirmBeforeExecution "drop table t" = ConfirmAssessment.mk true ["DROP"]
  ∧ shouldConfirmBeforeExecution "123" = ConfirmAssessment.mk false []
  ∧ shouldConfirmBeforeExecution "with x select 1" = ConfirmAssessment.mk false []
  ∧ shouldConfirmBeforeExecution "show parameters" =
      ConfirmAssessment.mk true ["SHOW"] := by
  refine ⟨?_, ?_, ?_, ?_⟩
  · exact (c2_preflight_two_tier.1 "drop table t" (by decide)).trans (by decide)
  · exact c2_preflight_two_tier.2.1 "123" (by decide) (by decide)
  · exact c2_preflight_two_tier.2.2.1 "with x select 1" "WITH" (by decide) (by decide)
      (by decide)
  · exact c2_preflight_two_tier.2.2.2.1 "show parameters" "SHOW" (by decide)
      (by decide) (by decide)

/-- C7 counterexample: in the spec example the semicolon lies inside the
line comment, so splitSqlStatements does not break there and does not
return the claimed single statement SELECT 1. -/
theorem c7_comment_semicolon_counterexample :
    splitSqlStatements ("-- a;" ++ String.singleton newlineChar ++ "SELECT 1") ≠
      ["SELECT 1"] := by decide

/-- C7 amended: the splitter discards any flushed fragment that reduces to
nothing once comments are stripped, as in the second example where the
semicolon follows the comment line; but in the original spec example the
semicolon lies inside the line comment, is no boundary, and the whole text
is returned as one statement. -/
theorem c7_comment_only_fragments_dropped :
    (∀ statements buffer, isCommentOnlySqlFragmentL (trimL buffer) = true →
      pushSqlBuffer statements buffer = statements)
  ∧ splitSqlStatements ("-- a" ++ String.singleton newlineChar ++ ";SELECT 1") =
      ["SELECT 1"]
  ∧ splitSqlStatements ("-- a;" ++ String.singleton newlineChar ++ "SELECT 1") =
      ["-- a;" ++ String.singleton newlineChar ++ "SELECT 1"] := by
  refine ⟨?_, by decide, by decide⟩
  intro statements buffer h
  unfold pushSqlBuffer
  simp only [h, Bool.or_true, if_true]

/-- Witness for C7 at a concrete comment-only buffer. -/
theorem c7_comment_only_fragments_dropped_witness :
    isCommentOnlySqlFragmentL (trimL ("-- a".data)) = true
  ∧ pushSqlBuffer [] ("-- a".data) = [] :=
  ⟨by decide, c7_comment_only_fragments_dropped.1 [] ("-- a".data) (by decide)⟩

/-- C4 counterexample: a worksheet text whose split produces a single
fragment beginning with END is not returned as the entire trimmed input;
the splitter returns just the surviving fragment, dropping the comment
tail, because the non-standalone check only runs when at least two
fragments were produced. -/
theorem c4_single_fragment_counterexample :
    executionCandidates ("END; -- x".data) = [("END".data)]
  ∧ splitQueryTextForExecution "END; -- x" = ["END"]
  ∧ splitQueryTextForExecution "END; -- x" ≠ ["END; -- x"] := by
  refine ⟨by decide, by decide, by decide⟩

/-- C4 amended: when the split yields at least two candidate fragments and
some fragment has no leading keyword or a leading keyword in the
non-standalone set, splitQueryTextForExecution discards the split and
returns the normalized entire trimmed input (trailing semicolon run and
whitespace removed unless the text starts with BEGIN or DECLARE) as the
single statement, or nothing when that normalization is empty. -/
theorem c4_non_standalone_fallback (l : List Char)
    (h2 : 2 ≤ (executionCandidates l).length)
    (hbad : hasNonStandaloneFragment (executionCandidates l) = true) :
    splitQueryTextForExecutionL l =
      (if (normalizeStatementForExecutionL (trimL l)).isEmpty then []
       else [normalizeStatementForExecutionL (trimL l)]) := by
  have hne : (trimL l).isEmpty = false := by
    cases hE : (trimL l).isEmpty
    · rfl
    · exfalso
      have hcand : executionCandidates l = [] := by
        unfold executionCandidates
        rw [List.isEmpty_iff.mp hE]
        rfl
      rw [hcand] at h2
      simp at h2
  have hgt : ¬ (executionCandidates l).length ≤ 1 := by omega
  unfold splitQueryTextForExecutionL
  simp only [hne, Bool.false_eq_true, if_false, hgt, hbad, if_true]

/-- Witness for C4 at the concrete text SELECT 1; END whose second
fragment begins with END. -/
theorem c4_non_standalone_fallback_witness :
    2 ≤ (executionCandidates ("SELECT 1; END".data)).length
  ∧ hasNonStandaloneFragment (executionCandidates ("SELECT 1; END".data)) = true
  ∧ splitQueryTextForExecutionL ("SELECT 1; END".data) = [("SELECT 1; END".data)] :=
  ⟨by decide, by decide,
    (c4_non_standalone_fallback ("SELECT 1; END".data) (by decide) (by decide)).trans
      (by decide)⟩

/-- C5 counterexample: pane numbering restarts at one on every run, so the
title Result 1 of the first run is reused by the immediately following
re-run (and by the initial pane of the tab), contradicting that titles
never repeat within the tab lifetime even across successive re-runs. -/
theorem c5_pane_titles_repeat_counterexample :
    ((prepareQueryResultPanes (prepareQueryResultPanes (createQueryTab 1 "HR") 1) 1).resultPanes.map
        (fun pane => pane.title) = ["Result 1"])
  ∧ ((prepareQueryResultPanes (createQueryTab 1 "HR") 1).resultPanes.map
        (fun pane => pane.title) = ["Result 1"])
  ∧ (prepareQueryResultPanes (createQueryTab 1 "HR") 1).nextResultPaneNumber = 2 := by
  refine ⟨by decide, by decide, by decide⟩

/-- C5 amended: prepareQueryResultPanes replaces the result panes with
exactly max 1 statementCount fresh empty panes numbered from one, resets
the active pane to the first new pane and sets the counter to one past the
pane count; numbering restarts at one each run, so titles are unique
within one run but repeat across re-runs. -/
theorem c5_prepare_panes :
    ∀ (tab : WorkspaceQueryTab) (statementCount : Nat),
      ((prepareQueryResultPanes tab statementCount).resultPanes.length =
        max 1 statementCount)
    ∧ ((prepareQueryResultPanes tab statementCount).resultPanes =
        (List.range (max 1 statementCount)).map
          (fun index => createQueryResultPane tab.id (index + 1)))
    ∧ (∀ index : Nat,
        (((prepareQueryResultPanes tab statementCount).resultPanes.getD index
            (createQueryResultPane tab.id 1)).queryResult = none)
      ∧ (((prepareQueryResultPanes tab statementCount).resultPanes.getD index
            (createQueryResultPane tab.id 1)).errorMessage = ""))
    ∧ ((prepareQueryResultPanes tab statementCount).activeResultPaneId =
        buildQueryResultPaneId tab.id 1)
    ∧ ((prepareQueryResultPanes tab statementCount).nextResultPaneNumber =
        max 1 statementCount + 1)
    ∧ ((prepareQueryResultPanes tab statementCount).id = tab.id) := by
  intro tab statementCount
  obtain ⟨m, hm⟩ : ∃ m, max 1 statementCount = m + 1 :=
    ⟨max 1 statementCount - 1, by omega⟩
  refine ⟨?_, rfl, ?_, ?_, rfl, rfl⟩
  · simp [prepareQueryResultPanes]
  · intro index
    unfold prepareQueryResultPanes
    simp only [List.getD_eq_getElem?_getD, List.getElem?_map]
    cases hE : (List.range (max 1 statementCount))[index]? <;>
      simp [createQueryResultPane]
  · unfold prepareQueryResultPanes
    simp only [hm, List.range_succ_eq_map, List.map_cons, List.headD_cons]
    rfl

/-- C9: the row limit sent with each executed statement is an integer in
the range one to MAX_QUERY_ROW_LIMIT: finite values are truncated toward
zero and clamped, values below one become one, values at or above the
maximum become the maximum, integers in range pass through, and non-finite
values become the default of one thousand; runQuery also writes the
clamped value back to the setting and sends exactly that value. -/
theorem c9_row_limit_clamped :
    (∀ v : JsNumber, 1 ≤ clampQueryRowLimit v ∧
      clampQueryRowLimit v ≤ MAX_QUERY_ROW_LIMIT)
  ∧ (∀ q : ℚ, q < 1 → clampQueryRowLimit (JsNumber.finite q) = 1)
  ∧ (∀ q : ℚ, (MAX_QUERY_ROW_LIMIT : ℚ) ≤ q →
      clampQueryRowLimit (JsNumber.finite q) = MAX_QUERY_ROW_LIMIT)
  ∧ (∀ q : ℚ, 1 ≤ q → q ≤ (MAX_QUERY_ROW_LIMIT : ℚ) →
      clampQueryRowLimit (JsNumber.finite q) = jsTrunc q)
  ∧ (∀ n : ℤ, 1 ≤ n → n ≤ MAX_QUERY_ROW_LIMIT →
      clampQueryRowLimit (JsNumber.finite (n : ℚ)) = n)
  ∧ (clampQueryRowLimit JsNumber.nan = DEFAULT_QUERY_ROW_LIMIT
      ∧ clampQueryRowLimit JsNumber.posInf = DEFAULT_QUERY_ROW_LIMIT
      ∧ clampQueryRowLimit JsNumber.negInf = DEFAULT_QUERY_ROW_LIMIT)
  ∧ (∀ tab v confirmResponse exec status0,
      (runQuery tab v confirmResponse exec status0).sentRowLimit =
        clampQueryRowLimit v
    ∧ (runQuery tab v confirmResponse exec status0).queryRowLimit =
        JsNumber.finite ((clampQueryRowLimit v : ℤ) : ℚ)) := by
  have hmax : (0 : ℤ) < MAX_QUERY_ROW_LIMIT := by decide
  refine ⟨?_, ?_, ?_, ?_, ?_, ⟨rfl, rfl, rfl⟩, ?_⟩
  · intro v
    cases v with
    | finite q =>
      simp only [clampQueryRowLimit]
      constructor
      · omega
      · simp only [MAX_QUERY_ROW_LIMIT] at hmax ⊢
        omega
    | nan => exact ⟨by decide, by decide⟩
    | posInf => exact ⟨by decide, by decide⟩
    | negInf => exact ⟨by decide, by decide⟩
  · intro q hq
    have ht : jsTrunc q < 1 := by
      unfold jsTrunc
      split
      · exact Int.floor_lt.mpr (by exact_mod_cast hq)
      · have h0 : q ≤ 0 := le_of_not_le (by assumption)
        have := Int.ceil_le.mpr (by exact_mod_cast h0 : q ≤ ((0 : ℤ) : ℚ))
        omega
    simp only [clampQueryRowLimit, MAX_QUERY_ROW_LIMIT]
    omega
  · intro q hq
    have h0 : (0 : ℚ) ≤ q := le_trans (by norm_num [MAX_QUERY_ROW_LIMIT]) hq
    have ht : MAX_QUERY_ROW_LIMIT ≤ jsTrunc q := by
      unfold jsTrunc
      rw [if_pos h0]
      exact Int.le_floor.mpr hq
    simp only [clampQueryRowLimit] at ht ⊢
    simp only [MAX_QUERY_ROW_LIMIT] at ht ⊢
    omega
  · intro q h1 h2
    have h0 : (0 : ℚ) ≤ q := le_trans (by norm_num) h1
    have hl : 1 ≤ jsTrunc q := by
      unfold jsTrunc
      rw [if_pos h0]
      exact Int.le_floor.mpr (by exact_mod_cast h1)
    have hr : jsTrunc q ≤ MAX_QUERY_ROW_LIMIT := by
      unfold jsTrunc
      rw [if_pos h0]
      have := Int.floor_le_floor h2
      rw [show ((MAX_QUERY_ROW_LIMIT : ℚ)) = ((MAX_QUERY_ROW_LIMIT : ℤ) : ℚ) by norm_num,
        Int.floor_intCast] at this
      exact this
    simp only [clampQueryRowLimit]
    simp only [MAX_QUERY_ROW_LIMIT] at hr ⊢
    omega
  · intro n h1 h2
    have h0 : (0 : ℚ) ≤ (n : ℚ) := by exact_mod_cast le_trans (by norm_num) h1
    have ht : jsTrunc (n : ℚ) = n := by
      unfold jsTrunc
      rw [if_pos h0, Int.floor_intCast]
    simp only [clampQueryRowLimit, ht]
    simp only [MAX_QUERY_ROW_LIMIT] at h2 ⊢
    omega
  · intro tab v confirmResponse exec status0
    have hnew :
        (if JsNumber.finite ((clampQueryRowLimit v : ℤ) : ℚ) = v then v
         else JsNumber.finite ((clampQueryRowLimit v : ℤ) : ℚ)) =
          JsNumber.finite ((clampQueryRowLimit v : ℤ) : ℚ) := by
      split
      · rename_i heq
        exact heq.symm
      · rfl
    constructor
    · simp only [runQuery]
      split
      · rfl
      · split
        · rfl
        · rfl
    · simp only [runQuery, hnew]
      split
      · rfl
      · split
        · rfl
        · rfl

/-- Witness for C9 at concrete setting values: one half, twenty thousand,
seven halves and the integer forty-two. -/
theorem c9_row_limit_clamped_witness :
    clampQueryRowLimit (JsNumber.finite (1 / 2)) = 1
  ∧ clampQueryRowLimit (JsNumber.finite 20000) = MAX_QUERY_ROW_LIMIT
  ∧ clampQueryRowLimit (JsNumber.finite (7 / 2)) = jsTrunc (7 / 2)
  ∧ clampQueryRowLimit (JsNumber.finite ((42 : ℤ) : ℚ)) = 42 :=
  ⟨c9_row_limit_clamped.2.1 (1 / 2) (by norm_num),
   c9_row_limit_clamped.2.2.1 20000 (by norm_num [MAX_QUERY_ROW_LIMIT]),
   c9_row_limit_clamped.2.2.2.1 (7 / 2) (by norm_num)
     (by norm_num [MAX_QUERY_ROW_LIMIT]),
   c9_row_limit_clamped.2.2.2.2.1 42 (by norm_num) (by norm_num [MAX_QUERY_ROW_LIMIT])⟩

/-- C10 counterexample: committing a new row whose first cell is the empty
string issues an INSERT that omits that column altogether; the empty cell
is not rendered as NULL in the VALUES list, which the claim asserts. -/
theorem c10_insert_omits_blank_counterexample :
    insertActiveObjectDataRowAction c6DemoObject (some c6DemoResult) ["", "x"] =
      RowSaveAction.issue (buildInsertRowSql c6DemoObject ["C1", "C2"] ["", "x"] [1])
  ∧ providedValueIndexes ["", "x"] = [1]
  ∧ buildInsertRowSql c6DemoObject ["C1", "C2"] ["", "x"] [1] ≠
      buildInsertRowSql c6DemoObject ["C1", "C2"] ["", "x"] [0, 1] := by
  refine ⟨by decide, by decide, by decide⟩

/-- C10 amended: an empty-string cell is rendered as the literal NULL in
UPDATE SET clauses, while non-empty values are rendered as single-quoted
literals with embedded quotes doubled; in INSERTs the blank cells are
omitted entirely (only non-blank columns are named in the column and
VALUES lists), so the NULL rendering applies to updates. -/
theorem c10_empty_renders_null :
    toSqlDataLiteral "" = "NULL"
  ∧ (∀ v : String, v ≠ "" → toSqlDataLiteral v = toSqlStringLiteral v)
  ∧ (∀ l : List Char, (escapeSingleQuotesL l).count singleQuoteChar =
      2 * l.count singleQuoteChar)
  ∧ (∀ l : List Char, singleQuoteChar ∉ l → escapeSingleQuotesL l = l)
  ∧ (∀ column : String, updateSetClauseSql column "" =
      toQuotedIdentifier column ++ " = NULL")
  ∧ (∀ column v : String, v ≠ "" →
      updateSetClauseSql column v =
        toQuotedIdentifier column ++ " = " ++ toSqlStringLiteral v)
  ∧ (∀ values : List String, ∀ index : Nat,
      index ∈ providedValueIndexes values ↔
        index < values.length ∧ values.getD index "" ≠ "") := by
  refine ⟨rfl, ?_, ?_, ?_, ?_, ?_, ?_⟩
  · intro v hv
    unfold toSqlDataLiteral
    rw [if_neg hv]
  · intro l
    induction l with
    | nil => rfl
    | cons c rest ih =>
      unfold escapeSingleQuotesL
      by_cases hc : c = singleQuoteChar
      · subst hc
        simp only [if_pos rfl, List.count_cons, ih, beq_self_eq_true, if_true]
        ring
      · rw [if_neg hc]
        simp only [List.count_cons, ih]
        have : (c == singleQuoteChar) = false := by
          exact beq_eq_false_iff_ne.mpr hc
        simp [this]
  · intro l hl
    induction l with
    | nil => rfl
    | cons c rest ih =>
      unfold escapeSingleQuotesL
      have hc : ¬ c = singleQuoteChar := fun h => hl (h ▸ List.mem_cons_self c rest)
      rw [if_neg hc, ih (fun h => hl (List.mem_cons_of_mem c h))]
  · intro column
    unfold updateSetClauseSql
    rw [show toSqlDataLiteral "" = "NULL" from by decide, String.append_assoc]
    exact congrArg (fun s => toQuotedIdentifier column ++ s)
      (by decide : " = " ++ "NULL" = " = NULL")
  · intro column v hv
    unfold updateSetClauseSql toSqlDataLiteral
    rw [if_neg hv]
  · intro values index
    unfold providedValueIndexes
    rw [List.mem_filter, List.mem_range]
    simp only [decide_eq_true_eq]

/-- Witness for C10 at a value containing an embedded quote and at a blank
update cell. -/
theorem c10_empty_renders_null_witness :
    toSqlDataLiteral ("a" ++ sqlQuoteStr ++ "b") =
      toSqlStringLiteral ("a" ++ sqlQuoteStr ++ "b")
  ∧ (escapeSingleQuotesL ("a" ++ sqlQuoteStr ++ "b").data).count singleQuoteChar = 2
  ∧ updateSetClauseSql "C2" "" = toQuotedIdentifier "C2" ++ " = NULL"
  ∧ (1 ∈ providedValueIndexes ["", "x"]) :=
  ⟨c10_empty_renders_null.2.1 ("a" ++ sqlQuoteStr ++ "b") (by decide),
   (c10_empty_renders_null.2.2.1 ("a" ++ sqlQuoteStr ++ "b").data).trans (by decide),
   c10_empty_renders_null.2.2.2.2.1 "C2",
   (c10_empty_renders_null.2.2.2.2.2.2 ["", "x"] 1).mpr (by decide)⟩

/-- Writing a successful result into one pane, pointwise. -/
theorem writeSuccessPane_getElem? (panes : List WorkspaceQueryResultPane)
    (index : Nat) (result : OracleQueryResult) (j : Nat) :
    (writeSuccessPane panes index result)[j]? =
      if j = index then
        (panes[j]?).map (fun pane =>
          { pane with queryResult := some result, errorMessage := "" })
      else panes[j]? := by
  unfold writeSuccessPane
  cases hE : panes[index]? with
  | none =>
    by_cases hj : j = index
    · subst hj
      rw [if_pos rfl, hE]
      rfl
    · rw [if_neg hj]
  | some pane =>
    have hlt : index < panes.length := by
      by_contra hge
      rw [List.getElem?_eq_none (by omega)] at hE
      exact Option.noConfusion hE
    by_cases hj : j = index
    · subst hj
      rw [List.getElem?_set_self hlt, if_pos rfl, hE]
      rfl
    · rw [List.getElem?_set_ne (fun h => hj h.symm), if_neg hj]

/-- Writing a successful result preserves the pane count. -/
theorem writeSuccessPane_length (panes : List WorkspaceQueryResultPane)
    (index : Nat) (result : OracleQueryResult) :
    (writeSuccessPane panes index result).length = panes.length := by
  unfold writeSuccessPane
  cases panes[index]? <;> simp

/-- Behavior of the execution loop when every statement before position k
succeeds and statement k fails: the loop completes exactly start + k
statements, reports the failure, preserves the pane count, writes each
success into the pane at its index and touches no other pane. -/
theorem runStatementsGo_fail_spec (exec : SqlGateway) (rowLimit : ℤ)
    (allowDestructive : Bool) (results : Nat → OracleQueryResult)
    (failMessage : String) :
    ∀ (stmts : List String) (k start : Nat)
      (panes : List WorkspaceQueryResultPane) (lastMessage : String),
      k < stmts.length →
      (∀ i, i < k →
        exec (start + i) (stmts.getD i "") rowLimit allowDestructive =
          Except.ok (results (start + i))) →
      exec (start + k) (stmts.getD k "") rowLimit allowDestructive =
        Except.error failMessage →
      ((runStatementsGo exec rowLimit allowDestructive stmts start panes
          lastMessage).completed = start + k
      ∧ (runStatementsGo exec rowLimit allowDestructive stmts start panes
          lastMessage).failed = some failMessage
      ∧ (runStatementsGo exec rowLimit allowDestructive stmts start panes
          lastMessage).panes.length = panes.length
      ∧ ∀ j, (runStatementsGo exec rowLimit allowDestructive stmts start panes
          lastMessage).panes[j]? =
          (if start ≤ j ∧ j < start + k then
            (panes[j]?).map (fun pane =>
              { pane with queryResult := some (results j), errorMessage := "" })
          else panes[j]?)) := by
  intro stmts
  induction stmts with
  | nil =>
    intro k start panes lastMessage hk
    simp at hk
  | cons s rest ih =>
    intro k start panes lastMessage hk hok hfail
    cases k with
    | zero =>
      have h0 : exec start s rowLimit allowDestructive = Except.error failMessage := by
        simpa using hfail
      unfold runStatementsGo
      rw [h0]
      dsimp only
      refine ⟨by omega, rfl, rfl, ?_⟩
      intro j
      have hno : ¬ (start ≤ j ∧ j < start + 0) := by omega
      rw [if_neg hno]
    | succ k' =>
      have h0 : exec start s rowLimit allowDestructive =
          Except.ok (results start) := by
        have h := hok 0 (Nat.succ_pos k')
        simpa using h
      have hk' : k' < rest.length := by
        simpa using hk
      have hok' : ∀ i, i < k' →
          exec (start + 1 + i) (rest.getD i "") rowLimit allowDestructive =
            Except.ok (results (start + 1 + i)) := by
        intro i hi
        have h := hok (i + 1) (by omega)
        have harith : start + (i + 1) = start + 1 + i := by omega
        rw [harith] at h
        simpa using h
      have hfail' : exec (start + 1 + k') (rest.getD k' "") rowLimit
          allowDestructive = Except.error failMessage := by
        have harith : start + (k' + 1) = start + 1 + k' := by omega
        rw [harith] at hfail
        simpa using hfail
      obtain ⟨ihc, ihf, ihl, ihp⟩ := ih k' (start + 1)
        (writeSuccessPane panes start (results start)) (results start).message
        hk' hok' hfail'
      unfold runStatementsGo
      rw [h0]
      dsimp only
      refine ⟨by rw [ihc]; omega, ihf,
        by rw [ihl, writeSuccessPane_length], ?_⟩
      intro j
      rw [ihp j]
      by_cases h1 : start + 1 ≤ j ∧ j < start + 1 + k'
      · rw [if_pos h1]
        have h2 : start ≤ j ∧ j < start + (k' + 1) := by omega
        rw [if_pos h2, writeSuccessPane_getElem?]
        have hne : j ≠ start := by omega
        rw [if_neg hne]
      · rw [if_neg h1, writeSuccessPane_getElem?]
        by_cases hj : j = start
        · subst hj
          rw [if_pos rfl]
          have h2 : j ≤ j ∧ j < j + (k' + 1) := by omega
          rw [if_pos h2]
        · rw [if_neg hj]
          have h2 : ¬ (start ≤ j ∧ j < start + (k' + 1)) := by omega
          rw [if_neg h2]

/-- The fresh panes prepared for a batch, pointwise. -/
theorem prepared_panes_getElem? (tab : WorkspaceQueryTab) (n : Nat)
    (hn : 1 ≤ n) (j : Nat) :
    (prepareQueryResultPanes tab n).resultPanes[j]? =
      (if j < n then some (createQueryResultPane tab.id (j + 1)) else none) := by
  unfold prepareQueryResultPanes
  simp only [max_eq_right hn]
  rw [List.getElem?_map]
  by_cases hj : j < n
  · rw [List.getElem?_range hj, if_pos hj]
    rfl
  · rw [List.getElem?_eq_none (by simpa using hj), if_neg hj]
    rfl

/-- C3: a batch executed through runQuery stops at the first failing
statement: panes before the failure hold the successful results, the pane
at the failing index receives the error message and is forced active, and
every later pane stays a fresh empty pane; the global error line carries
the message. -/
theorem c3_batch_stops_at_first_failure (tab : WorkspaceQueryTab)
    (exec : SqlGateway) (rowLimit : ℤ) (allowDestructive : Bool)
    (statements : List String) (status0 : String) (k : Nat)
    (results : Nat → OracleQueryResult) (failMessage : String)
    (hk : k < statements.length)
    (hok : ∀ i, i < k →
      exec i (statements.getD i "") rowLimit allowDestructive =
        Except.ok (results i))
    (hfail : exec k (statements.getD k "") rowLimit allowDestructive =
      Except.error failMessage) :
    let out := runQueryBatch tab exec rowLimit allowDestructive statements status0
    out.tab.resultPanes.length = statements.length
  ∧ (∀ i, i < k → out.tab.resultPanes[i]? =
      some { createQueryResultPane tab.id (i + 1) with
        queryResult := some (results i) })
  ∧ out.tab.resultPanes[k]? =
      some { createQueryResultPane tab.id (k + 1) with
        errorMessage := failMessage }
  ∧ out.tab.activeResultPaneId = buildQueryResultPaneId tab.id (k + 1)
  ∧ (∀ j, k < j → j < statements.length →
      out.tab.resultPanes[j]? = some (createQueryResultPane tab.id (j + 1)))
  ∧ out.errorMessage = failMessage := by
  intro out
  have hn : 1 ≤ statements.length := by omega
  have hok0 : ∀ i, i < k →
      exec (0 + i) (statements.getD i "") rowLimit allowDestructive =
        Except.ok (results (0 + i)) := by
    intro i hi
    simpa using hok i hi
  have hfail0 : exec (0 + k) (statements.getD k "") rowLimit allowDestructive =
      Except.error failMessage := by
    simpa using hfail
  obtain ⟨hc, hf, hl, hp⟩ := runStatementsGo_fail_spec exec rowLimit
    allowDestructive results failMessage statements k 0
    (prepareQueryResultPanes tab statements.length).resultPanes "" hk hok0 hfail0
  have hprepl : (prepareQueryResultPanes tab statements.length).resultPanes.length =
      statements.length := by
    unfold prepareQueryResultPanes
    simp [max_eq_right hn]
  have hloopk : (runStatementsGo exec rowLimit allowDestructive statements 0
      (prepareQueryResultPanes tab statements.length).resultPanes "").panes[k]? =
      some (createQueryResultPane tab.id (k + 1)) := by
    rw [hp k, if_neg (by omega), prepared_panes_getElem? tab statements.length hn k,
      if_pos hk]
  have hout : out = QueryBatchResult.mk
      { prepareQueryResultPanes tab statements.length with
          resultPanes := (runStatementsGo exec rowLimit allowDestructive statements 0
            (prepareQueryResultPanes tab statements.length).resultPanes "").panes.set k
            { createQueryResultPane tab.id (k + 1) with errorMessage := failMessage }
          activeResultPaneId := (createQueryResultPane tab.id (k + 1)).id }
      failMessage
      (if 1 < statements.length then
        "Execution stopped at statement " ++ toString (k + 1) ++ " of " ++
          toString statements.length ++ "."
       else status0) := by
    show runQueryBatch tab exec rowLimit allowDestructive statements status0 = _
    simp only [runQueryBatch]
    rw [hf]
    dsimp only
    rw [hc]
    simp only [Nat.zero_add]
    rw [hloopk]
  have hkl : k < (runStatementsGo exec rowLimit allowDestructive statements 0
      (prepareQueryResultPanes tab statements.length).resultPanes "").panes.length := by
    rw [hl, hprepl]
    exact hk
  refine ⟨?_, ?_, ?_, ?_, ?_, ?_⟩
  · rw [hout]
    dsimp only
    rw [List.length_set, hl, hprepl]
  · intro i hi
    rw [hout]
    dsimp only
    rw [List.getElem?_set_ne (by omega), hp i, if_pos (by omega),
      prepared_panes_getElem? tab statements.length hn i, if_pos (by omega)]
    rfl
  · rw [hout]
    dsimp only
    rw [List.getElem?_set_self hkl]
  · rw [hout]
    rfl
  · intro j hj1 hj2
    rw [hout]
    dsimp only
    rw [List.getElem?_set_ne (by omega), hp j, if_neg (by omega),
      prepared_panes_getElem? tab statements.length hn j, if_pos hj2]
  · rw [hout]

/-- Witness for C3: a three-statement batch whose second statement fails
leaves pane one with the success result, pane two with the error message
and active, and pane three fresh and empty. -/
theorem c3_batch_stops_at_first_failure_witness :
    (runQueryBatch (createQueryTab 1 "HR") c3DemoExec 1000 false ["a", "b", "c"]
        "").tab.resultPanes[0]? =
      some { createQueryResultPane (createQueryTab 1 "HR").id 1 with
        queryResult := some c3DemoResult }
  ∧ (runQueryBatch (createQueryTab 1 "HR") c3DemoExec 1000 false ["a", "b", "c"]
        "").tab.resultPanes[1]? =
      some { createQueryResultPane (createQueryTab 1 "HR").id 2 with
        errorMessage := "boom" }
  ∧ (runQueryBatch (createQueryTab 1 "HR") c3DemoExec 1000 false ["a", "b", "c"]
        "").tab.resultPanes[2]? =
      some (createQueryResultPane (createQueryTab 1 "HR").id 3)
  ∧ (runQueryBatch (createQueryTab 1 "HR") c3DemoExec 1000 false ["a", "b", "c"]
        "").tab.activeResultPaneId =
      buildQueryResultPaneId (createQueryTab 1 "HR").id 2 := by
  have h := c3_batch_stops_at_first_failure (createQueryTab 1 "HR") c3DemoExec
    1000 false ["a", "b", "c"] "" 1 (fun _ => c3DemoResult) "boom"
    (by decide)
    (by
      intro i hi
      have h0 : i = 0 := by omega
      subst h0
      rfl)
    (by rfl)
  exact ⟨h.2.1 0 (by decide), h.2.2.1, h.2.2.2.2.1 2 (by decide) (by decide),
    h.2.2.2.1⟩

/-- Updating the first match leaves any id-preserving projection of the
list unchanged. -/
theorem updateFirstMatch_map {α β : Type} (p : α → Bool) (f : α → α) (g : α → β)
    (h : ∀ x, p x = true → g (f x) = g x) :
    ∀ l : List α, (updateFirstMatch p f l).map g = l.map g := by
  intro l
  induction l with
  | nil => rfl
  | cons x xs ih =>
    unfold updateFirstMatch
    cases hp : p x
    · simp only [Bool.false_eq_true, if_false, List.map_cons, ih]
    · simp only [if_true, List.map_cons, h x hp]

/-- Membership in an updated list comes from an untouched element or from
the image of a matched element. -/
theorem mem_updateFirstMatch {α : Type} (p : α → Bool) (f : α → α) :
    ∀ (l : List α) (t : α), t ∈ updateFirstMatch p f l →
      t ∈ l ∨ ∃ x, x ∈ l ∧ p x = true ∧ t = f x := by
  intro l
  induction l with
  | nil =>
    intro t ht
    exact absurd ht (List.not_mem_nil t)
  | cons x xs ih =>
    intro t ht
    unfold updateFirstMatch at ht
    by_cases hp : p x = true
    · rw [if_pos hp] at ht
      rcases List.mem_cons.mp ht with he | hm
      · exact Or.inr ⟨x, List.mem_cons_self x xs, hp, he⟩
      · exact Or.inl (List.mem_cons_of_mem x hm)
    · rw [if_neg hp] at ht
      rcases List.mem_cons.mp ht with he | hm
      · exact Or.inl (he ▸ List.mem_cons_self x xs)
      · rcases ih t hm with hin | ⟨y, hy, hpy, hty⟩
        · exact Or.inl (List.mem_cons_of_mem x hin)
        · exact Or.inr ⟨y, List.mem_cons_of_mem x hy, hpy, hty⟩

/-- Activating a workspace tab never changes the detail tab list. -/
theorem activateWorkspaceTab_ddlTabs (st : WorkspaceState) (tabId : String) :
    (activateWorkspaceTab st tabId).ddlTabs = st.ddlTabs := by
  unfold activateWorkspaceTab
  dsimp only
  split
  · rfl
  · split
    · rfl
    · split
      · rfl
      · rfl

/-- Activating a workspace tab sets it active. -/
theorem activateWorkspaceTab_activeId (st : WorkspaceState) (tabId : String) :
    (activateWorkspaceTab st tabId).activeWorkspaceTabId = tabId := by
  unfold activateWorkspaceTab
  dsimp only
  split
  · rfl
  · split
    · rfl
    · split
      · rfl
      · rfl

/-- Reloading DDL into an existing tab keeps its id. -/
theorem loadDdlUpdateTab_id (object : OracleObjectEntry) (ddl : String)
    (targetLine : Option ℤ) (detailTabId : ObjectDetailTabId)
    (tab : WorkspaceDdlTab) :
    (loadDdlUpdateTab object ddl targetLine detailTabId tab).id = tab.id := by
  unfold loadDdlUpdateTab
  dsimp only
  split
  · rfl
  · rfl

/-- Reloading DDL into an existing tab overwrites its object. -/
theorem loadDdlUpdateTab_object (object : OracleObjectEntry) (ddl : String)
    (targetLine : Option ℤ) (detailTabId : ObjectDetailTabId)
    (tab : WorkspaceDdlTab) :
    (loadDdlUpdateTab object ddl targetLine detailTabId tab).object = object := by
  unfold loadDdlUpdateTab
  dsimp only
  split
  · rfl
  · rfl

/-- Reopening an object into an existing tab keeps its id. -/
theorem openObjectUpdateTab_id (object : OracleObjectEntry)
    (tab : WorkspaceDdlTab) :
    (openObjectUpdateTab object tab).id = tab.id := by
  unfold openObjectUpdateTab
  dsimp only
  split
  · rfl
  · rfl

/-- Reopening an object into an existing tab overwrites its object. -/
theorem openObjectUpdateTab_object (object : OracleObjectEntry)
    (tab : WorkspaceDdlTab) :
    (openObjectUpdateTab object tab).object = object := by
  unfold openObjectUpdateTab
  dsimp only
  split
  · rfl
  · rfl

/-- Characterization of the tab list after loadDdl: unchanged on fetch
error, updated in place when a tab with the derived id exists, appended
otherwise. -/
theorem loadDdl_ddlTabs (st : WorkspaceState) (object : OracleObjectEntry)
    (targetLine : Option ℤ) (fetch : Except String String) :
    (loadDdl st object targetLine fetch).ddlTabs =
      (match fetch with
      | Except.error _ => st.ddlTabs
      | Except.ok ddl =>
        if st.ddlTabs.any (fun tab => tab.id = buildDdlTabId object) then
          updateFirstMatch (fun tab => tab.id = buildDdlTabId object)
            (loadDdlUpdateTab object ddl targetLine
              (if targetLine.isNone then getDefaultObjectDetailTabId object
               else ObjectDetailTabId.ddl)) st.ddlTabs
        else st.ddlTabs ++
          [WorkspaceDdlTab.mk (buildDdlTabId object) object ddl targetLine
            (if targetLine.isNone then 0 else 1)
            (if targetLine.isNone then getDefaultObjectDetailTabId object
             else ObjectDetailTabId.ddl) none none false false]) := by
  unfold loadDdl
  cases fetch with
  | error message => rfl
  | ok ddl =>
    dsimp only
    rw [activateWorkspaceTab_ddlTabs]
    split
    · rfl
    · rfl

/-- loadDdl preserves distinctness of the tab ids. -/
theorem loadDdl_nodup (st : WorkspaceState) (object : OracleObjectEntry)
    (targetLine : Option ℤ) (fetch : Except String String)
    (h : ddlTabIdsNodup st) : ddlTabIdsNodup (loadDdl st object targetLine fetch) := by
  unfold ddlTabIdsNodup at h ⊢
  rw [loadDdl_ddlTabs]
  cases fetch with
  | error message => exact h
  | ok ddl =>
    dsimp only
    cases hany : st.ddlTabs.any (fun tab => tab.id = buildDdlTabId object)
    · rw [if_neg Bool.false_ne_true]
      rw [List.map_append, List.nodup_append]
      refine ⟨h, by simp, ?_⟩
      intro a ha hb
      simp only [List.map_cons, List.map_nil, List.mem_singleton] at hb
      subst hb
      obtain ⟨tab, htab, hid⟩ := List.mem_map.mp ha
      have hne := List.any_eq_false.mp hany tab htab
      simp only [decide_eq_true_eq] at hne
      exact hne hid
    · rw [if_pos rfl]
      rw [updateFirstMatch_map _ _ _ (fun x _ => loadDdlUpdateTab_id _ _ _ _ x)]
      exact h

/-- loadDdl preserves well-keyed tabs. -/
theorem loadDdl_wellKeyed (st : WorkspaceState) (object : OracleObjectEntry)
    (targetLine : Option ℤ) (fetch : Except String String)
    (h : ddlTabsWellKeyed st) :
    ddlTabsWellKeyed (loadDdl st object targetLine fetch) := by
  unfold ddlTabsWellKeyed at h ⊢
  intro tab htab
  rw [loadDdl_ddlTabs] at htab
  cases fetch with
  | error message => exact h tab htab
  | ok ddl =>
    dsimp only at htab
    cases hany : st.ddlTabs.any (fun tab => tab.id = buildDdlTabId object)
    · rw [if_neg (by rw [hany]; exact Bool.false_ne_true)] at htab
      rcases List.mem_append.mp htab with hin | hnew
      · exact h tab hin
      · rw [List.mem_singleton] at hnew
        subst hnew
        rfl
    · rw [if_pos hany] at htab
      rcases mem_updateFirstMatch _ _ _ tab htab with hin | ⟨x, hx, hpx, htx⟩
      · exact h tab hin
      · subst htx
        rw [loadDdlUpdateTab_id, loadDdlUpdateTab_object]
        exact of_decide_eq_true hpx

/-- C8: the identity of an object detail tab is derived deterministically
from its schema, type and name key; opening an object whose tab exists
reactivates that tab without changing the tab id list; opening and loading
preserve distinctness of tab ids and the keying of each tab by its own
object, and under those invariants the tab set never holds two tabs for
the same object key. -/
theorem c8_object_tab_identity :
    (∀ (st : WorkspaceState) (object : OracleObjectEntry)
        (fetch : Except String String),
      (st.ddlTabs.any (fun tab => tab.id = buildDdlTabId object)) = true →
      ((openObjectFromExplorer st object fetch).ddlTabs.map (fun tab => tab.id) =
          st.ddlTabs.map (fun tab => tab.id)
        ∧ (openObjectFromExplorer st object fetch).activeWorkspaceTabId =
            buildDdlTabId object))
  ∧ (∀ (st : WorkspaceState) (object : OracleObjectEntry)
        (fetch : Except String String), ddlTabIdsNodup st →
      ddlTabIdsNodup (openObjectFromExplorer st object fetch))
  ∧ (∀ (st : WorkspaceState) (object : OracleObjectEntry)
        (targetLine : Option ℤ) (fetch : Except String String),
      ddlTabIdsNodup st → ddlTabIdsNodup (loadDdl st object targetLine fetch))
  ∧ (∀ (st : WorkspaceState) (object : OracleObjectEntry)
        (fetch : Except String String), ddlTabsWellKeyed st →
      ddlTabsWellKeyed (openObjectFromExplorer st object fetch))
  ∧ (∀ (st : WorkspaceState) (object : OracleObjectEntry)
        (targetLine : Option ℤ) (fetch : Except String String),
      ddlTabsWellKeyed st → ddlTabsWellKeyed (loadDdl st object targetLine fetch))
  ∧ (∀ st : WorkspaceState, ddlTabIdsNodup st → ddlTabsWellKeyed st →
      st.ddlTabs.Pairwise (fun t1 t2 => t1.object ≠ t2.object)) := by
  refine ⟨?_, ?_, ?_, ?_, ?_, ?_⟩
  · intro st object fetch hany
    unfold openObjectFromExplorer
    dsimp only
    rw [if_pos hany]
    constructor
    · rw [activateWorkspaceTab_ddlTabs]
      dsimp only
      exact updateFirstMatch_map _ _ _ (fun x _ => openObjectUpdateTab_id object x)
        st.ddlTabs
    · exact activateWorkspaceTab_activeId _ _
  · intro st object fetch h
    unfold openObjectFromExplorer
    dsimp only
    cases hany : st.ddlTabs.any (fun tab => tab.id = buildDdlTabId object)
    · rw [if_neg Bool.false_ne_true]
      exact loadDdl_nodup _ object none fetch h
    · rw [if_pos rfl]
      unfold ddlTabIdsNodup at h ⊢
      rw [activateWorkspaceTab_ddlTabs]
      dsimp only
      rw [updateFirstMatch_map _ _ _ (fun x _ => openObjectUpdateTab_id object x)]
      exact h
  · intro st object targetLine fetch h
    exact loadDdl_nodup st object targetLine fetch h
  · intro st object fetch h
    unfold openObjectFromExplorer
    dsimp only
    cases hany : st.ddlTabs.any (fun tab => tab.id = buildDdlTabId object)
    · rw [if_neg Bool.false_ne_true]
      exact loadDdl_wellKeyed _ object none fetch h
    · rw [if_pos rfl]
      unfold ddlTabsWellKeyed at h ⊢
      intro tab htab
      rw [activateWorkspaceTab_ddlTabs] at htab
      dsimp only at htab
      rcases mem_updateFirstMatch _ _ _ tab htab with hin | ⟨x, hx, hpx, htx⟩
      · exact h tab hin
      · subst htx
        rw [openObjectUpdateTab_id, openObjectUpdateTab_object]
        exact of_decide_eq_true hpx
  · intro st object targetLine fetch h
    exact loadDdl_wellKeyed st object targetLine fetch h
  · intro st h1 h2
    unfold ddlTabIdsNodup at h1
    have hp := List.pairwise_map.mp h1
    refine hp.imp_of_mem ?_
    intro a b ha hb hne heq
    exact hne (by rw [h2 a ha, h2 b hb, heq])

/-- Witness for C8: reopening the demo object whose tab already exists
keeps the single tab, activates it, and preserves the invariants. -/
theorem c8_object_tab_identity_witness :
    (c8DemoState.ddlTabs.any (fun tab => tab.id = buildDdlTabId c8DemoEntry)) = true
  ∧ (openObjectFromExplorer c8DemoState c8DemoEntry (Except.ok "x")).ddlTabs.map
      (fun tab => tab.id) = [buildDdlTabId c8DemoEntry]
  ∧ (openObjectFromExplorer c8DemoState c8DemoEntry
      (Except.ok "x")).activeWorkspaceTabId = buildDdlTabId c8DemoEntry
  ∧ ddlTabIdsNodup (openObjectFromExplorer c8DemoState c8DemoEntry
      (Except.ok "x")) := by
  have ha := c8_object_tab_identity.1 c8DemoState c8DemoEntry (Except.ok "x")
    (by decide)
  refine ⟨by decide, ha.1.trans (by decide), ha.2, ?_⟩
  exact c8_object_tab_identity.2.1 c8DemoState c8DemoEntry (Except.ok "x")
    (by unfold ddlTabIdsNodup; decide)

/-- Applying a successful update to the snapshot changes only rows. -/
theorem applyUpdateToResult_columns (result : OracleQueryResult) (rowIndex : Nat)
    (values : List String) :
    (applyUpdateToResult result rowIndex values).columns = result.columns := by
  unfold applyUpdateToResult
  cases result.rows[rowIndex]? <;> rfl

/-- Row-identity detection only reads the column list. -/
theorem hasObjectDataRowIdColumn_congr (a b : OracleQueryResult)
    (h : a.columns = b.columns) :
    hasObjectDataRowIdColumn a = hasObjectDataRowIdColumn b := by
  unfold hasObjectDataRowIdColumn
  rw [h]

/-- The update action issues exactly the generated UPDATE statement when
the guards pass and some column changed. -/
theorem updateAction_issue (object : OracleObjectEntry)
    (result : OracleQueryResult) (rowIndex : Nat) (values : List String)
    (rid : String) (srow : List String)
    (hrowid : hasObjectDataRowIdColumn result = true)
    (hrow : result.rows[rowIndex]? = some (rid :: srow))
    (hrid : rid ≠ "")
    (hlen : (result.columns.drop 1).length = values.length)
    (hchanged : changedValueIndexes (rid :: srow) values ≠ []) :
    updateActiveObjectDataRowAction object (some result) rowIndex values =
      RowSaveAction.issue (buildUpdateRowSql object (result.columns.drop 1)
        (rid :: srow) values (changedValueIndexes (rid :: srow) values)) := by
  unfold updateActiveObjectDataRowAction
  dsimp only
  simp only [hrowid, Bool.not_true, Bool.false_eq_true, if_false]
  rw [hrow]
  dsimp only
  have hlen2 : result.columns.length - 1 = values.length := by
    rw [← List.length_drop]
    exact hlen
  rw [if_neg (by simp [hrid, hlen2])]
  have hne : (changedValueIndexes (rid :: srow) values).isEmpty = false := by
    cases hE : (changedValueIndexes (rid :: srow) values).isEmpty
    · rfl
    · exact absurd (List.isEmpty_iff.mp hE) hchanged
  rw [if_neg (by rw [hne]; exact Bool.false_ne_true)]

/-- The insert action issues exactly the generated INSERT statement when
the guards pass and some cell is non-blank. -/
theorem insertAction_issue (object : OracleObjectEntry)
    (result : OracleQueryResult) (values : List String)
    (hrowid : hasObjectDataRowIdColumn result = true)
    (hlen : (result.columns.drop 1).length = values.length)
    (hprov : providedValueIndexes values ≠ []) :
    insertActiveObjectDataRowAction object (some result) values =
      RowSaveAction.issue (buildInsertRowSql object (result.columns.drop 1)
        values (providedValueIndexes values)) := by
  unfold insertActiveObjectDataRowAction
  dsimp only
  simp only [hrowid, Bool.not_true, Bool.false_eq_true, if_false]
  have hlen2 : result.columns.length - 1 = values.length := by
    rw [← List.length_drop]
    exact hlen
  rw [if_neg (by simp [hlen2])]
  have hne : (providedValueIndexes values).isEmpty = false := by
    cases hE : (providedValueIndexes values).isEmpty
    · rfl
    · exact absurd (List.isEmpty_iff.mp hE) hprov
  rw [if_neg (by rw [hne]; exact Bool.false_ne_true)]

/-- C6: committing a draft grid whose dirty indexes are exactly one
existing row u and one appended new row issues exactly one UPDATE for row
u, keyed by its row identity and setting only the changed columns, then
exactly one INSERT naming only the non-blank columns of the new row, in
ascending row-index order; when the gateway rejects the UPDATE the INSERT
is never issued, nothing is recorded as saved and the draft rows are left
untouched. -/
theorem c6_commit_one_update_one_insert (gateway : String → Bool)
    (object : OracleObjectEntry) (result : OracleQueryResult)
    (draftRows : List (List String)) (u : Nat) (rid : String)
    (srow du nv : List String)
    (hrowid : hasObjectDataRowIdColumn result = true)
    (hdirty : dirtyRowIndexes (strippedSourceRows (some result)) draftRows =
      [u, result.rows.length])
    (hu : u < result.rows.length)
    (hrow : result.rows[u]? = some (rid :: srow))
    (hrid : rid ≠ "")
    (hdu : draftRows[u]? = some du)
    (hdulen : (result.columns.drop 1).length = du.length)
    (hchanged : changedValueIndexes (rid :: srow) du ≠ [])
    (hnv : draftRows[result.rows.length]? = some nv)
    (hnvlen : (result.columns.drop 1).length = nv.length)
    (hprov : providedValueIndexes nv ≠ []) :
    (gateway (buildUpdateRowSql object (result.columns.drop 1) (rid :: srow) du
        (changedValueIndexes (rid :: srow) du)) = true →
      (commitDataChanges gateway object (some result) draftRows).issuedSql =
        [buildUpdateRowSql object (result.columns.drop 1) (rid :: srow) du
          (changedValueIndexes (rid :: srow) du),
         buildInsertRowSql object (result.columns.drop 1) nv
          (providedValueIndexes nv)])
  ∧ (gateway (buildUpdateRowSql object (result.columns.drop 1) (rid :: srow) du
        (changedValueIndexes (rid :: srow) du)) = false →
      ((commitDataChanges gateway object (some result) draftRows).issuedSql =
        [buildUpdateRowSql object (result.columns.drop 1) (rid :: srow) du
          (changedValueIndexes (rid :: srow) du)]
      ∧ (commitDataChanges gateway object
          (some result) draftRows).completedAllUpdates = false
      ∧ (commitDataChanges gateway object
          (some result) draftRows).savedRowIndexes = []
      ∧ (commitDataChanges gateway object
          (some result) draftRows).draftRows = draftRows)) := by
  have horig : (strippedSourceRows (some result)).length = result.rows.length := by
    unfold strippedSourceRows
    simp
  have hstep : commitDataChanges gateway object (some result) draftRows =
      commitGo gateway object result.rows.length [u, result.rows.length]
        (CommitOutcome.mk [] [] true false (some result) draftRows) := by
    unfold commitDataChanges
    dsimp only
    rw [hdirty, horig]
  have hupd := updateAction_issue object result u du rid srow hrowid hrow hrid
    hdulen hchanged
  have hcols : (applyUpdateToResult result u du).columns = result.columns :=
    applyUpdateToResult_columns result u du
  have hins := insertAction_issue object (applyUpdateToResult result u du) nv
    (by rw [hasObjectDataRowIdColumn_congr _ result hcols]; exact hrowid)
    (by rw [hcols]; exact hnvlen)
    hprov
  constructor
  · intro hg
    rw [hstep]
    unfold commitGo
    dsimp only
    rw [hdu]
    dsimp only
    rw [if_pos hu, hupd]
    dsimp only
    rw [if_pos hg]
    unfold commitGo
    dsimp only
    rw [hnv]
    dsimp only
    rw [if_neg (lt_irrefl _)]
    simp only [Option.map_some']
    rw [hins]
    dsimp only
    rw [hcols]
    cases hg2 : gateway (buildInsertRowSql object (result.columns.drop 1) nv
        (providedValueIndexes nv))
    · rw [if_neg Bool.false_ne_true]
      simp
    · rw [if_pos rfl]
      unfold commitGo
      simp
  · intro hg
    rw [hstep]
    unfold commitGo
    dsimp only
    rw [hdu]
    dsimp only
    rw [if_pos hu, hupd]
    dsimp only
    rw [if_neg (by rw [hg]; exact Bool.false_ne_true)]
    refine ⟨by simp, rfl, rfl, rfl⟩

/-- Witness for C6 on a concrete one-row table with one dirty existing row
and one appended new row, for an accepting and a rejecting gateway. -/
theorem c6_commit_one_update_one_insert_witness :
    (commitDataChanges (fun _ => true) c6DemoObject (some c6DemoResult)
        c6DemoDraft).issuedSql =
      [buildUpdateRowSql c6DemoObject (c6DemoResult.columns.drop 1)
        ["r1", "a", "b"] ["a", "x"] (changedValueIndexes ["r1", "a", "b"] ["a", "x"]),
       buildInsertRowSql c6DemoObject (c6DemoResult.columns.drop 1) ["", "y"]
        (providedValueIndexes ["", "y"])]
  ∧ (commitDataChanges (fun _ => false) c6DemoObject (some c6DemoResult)
        c6DemoDraft).issuedSql =
      [buildUpdateRowSql c6DemoObject (c6DemoResult.columns.drop 1)
        ["r1", "a", "b"] ["a", "x"] (changedValueIndexes ["r1", "a", "b"] ["a", "x"])]
  ∧ (commitDataChanges (fun _ => false) c6DemoObject (some c6DemoResult)
        c6DemoDraft).completedAllUpdates = false
  ∧ (commitDataChanges (fun _ => false) c6DemoObject (some c6DemoResult)
        c6DemoDraft).draftRows = c6DemoDraft := by
  have htrue := c6_commit_one_update_one_insert (fun _ => true) c6DemoObject
    c6DemoResult c6DemoDraft 0 "r1" ["a", "b"] ["a", "x"] ["", "y"]
    (by decide) (by decide) (by decide) (by decide) (by decide) (by decide)
    (by decide) (by decide) (by decide) (by decide) (by decide)
  have hfalse := c6_commit_one_update_one_insert (fun _ => false) c6DemoObject
    c6DemoResult c6DemoDraft 0 "r1" ["a", "b"] ["a", "x"] ["", "y"]
    (by decide) (by decide) (by decide) (by decide) (by decide) (by decide)
    (by decide) (by decide) (by decide) (by decide) (by decide)
  obtain ⟨h1, h2, h3, h4⟩ := hfalse.2 (by rfl)
  exact ⟨htrue.1 (by rfl), h1, h2, h4⟩
